import Mathlib

/-!
# Heatmap backend (`backends/implot_impl_opengl3.cpp`): a verification development

The development has two halves.

* The fragment shader `HEATMAP_FRAGMENT_SHADER_CODE` is embedded over exact real
  arithmetic: GLSL `float` becomes `ℝ`, `log` becomes `Real.log` and `pow` becomes the
  real power.  The purely rational helpers (`bark`, `barkInv`, `clamp`, `mix`) are written
  over an arbitrary linear ordered field, so they can be evaluated over `ℚ` and used over `ℝ`.
* The C++ side (`RenderHeatmap`, `BustItemCache`, the draw-list callbacks, the upload
  adapters and `CompileShader`) is embedded by explicit state passing over a record of the
  backend context, a record of the OpenGL state and the host draw list.
-/

namespace ImPlot
namespace Backend

/-! ## Fragment shader -/

/-- GLSL: `const float invln10 = 1 / log(10.0);` -/
noncomputable def invln10 : ℝ := 1 / Real.log 10.0

/-- GLSL: `float log10(float x) { return log(x) * invln10; }` -/
noncomputable def log10 (x : ℝ) : ℝ := Real.log x * invln10

/-- GLSL: `float mel(float f) { return 2595 * log10(1 + f / 700); }` -/
noncomputable def mel (f : ℝ) : ℝ := 2595 * log10 (1 + f / 700)

/-- GLSL: `float erb(float f) { return 21.33228 * log10(1 + 0.00437 * f); }` -/
noncomputable def erb (f : ℝ) : ℝ := 21.33228 * log10 (1 + 0.00437 * f)

/-- GLSL `bark`: the two `if` statements run one after the other on the updated `b`. -/
def bark {α : Type} [LinearOrderedField α] (f : α) : α :=
  let b := (26.81 * f) / (1960 + f) - 0.53
  let b := if b < 2 then b + 0.15 * (2 - b) else b
  let b := if b > 20.0 then b + 0.22 * (b - 20.1) else b
  b

/-- GLSL: `float melInv(float m) { return 700 * (pow(10, m / 2595) - 1); }` -/
noncomputable def melInv (m : ℝ) : ℝ := 700 * ((10 : ℝ) ^ (m / 2595) - 1)

/-- GLSL: `float erbInv(float erb) { return (pow(10, erb / 21.33228) - 1) / 0.00437; }` -/
noncomputable def erbInv (erb : ℝ) : ℝ := ((10 : ℝ) ^ (erb / 21.33228) - 1) / 0.00437

/-- GLSL `barkInv`: again two sequential `if` statements on the updated `b`. -/
def barkInv {α : Type} [LinearOrderedField α] (b : α) : α :=
  let b := if b < 2 then (b - 0.3) / 0.85 else b
  let b := if b > 20.1 then (b + 4.422) / 1.22 else b
  1960 * (b + 0.53) / (26.28 - b)

/-- GLSL `convert_scale`.  For a `scale` outside `0..4` the local `t` is read
uninitialised; that undefined result is `none`. -/
noncomputable def convert_scale (scale : Int) (x min_rng max_rng : ℝ) : Option ℝ :=
  if scale = 0 then some x
  else
    let t : Option ℝ :=
      if scale = 1 then
        let minrl := log10 min_rng
        let maxrl := log10 max_rng
        some ((10 : ℝ) ^ (x * (maxrl - minrl) + minrl))
      else if scale = 2 then
        let minrl := mel min_rng
        let maxrl := mel max_rng
        some (melInv (x * (maxrl - minrl) + minrl))
      else if scale = 3 then
        let minrl := erb min_rng
        let maxrl := erb max_rng
        some (erbInv (x * (maxrl - minrl) + minrl))
      else if scale = 4 then
        let minrl := bark min_rng
        let maxrl := bark max_rng
        some (barkInv (x * (maxrl - minrl) + minrl))
      else none
    t.map fun t => (t - min_rng) / (max_rng - min_rng)

/-- GLSL built-in `clamp(x, minVal, maxVal) = min(max(x, minVal), maxVal)`. -/
def clamp {α : Type} [LinearOrderedField α] (x minVal maxVal : α) : α :=
  min (max x minVal) maxVal

/-- GLSL built-in `mix(x, y, a) = x * (1 - a) + y * a`. -/
def mix {α : Type} [LinearOrderedField α] (x y a : α) : α :=
  x * (1 - a) + y * a

/-- The colormap sampling coordinate of the fragment `main`: `textureSize` is the width of
the colormap texture, `value` the texel read from the heatmap texture.
```
float min_tex_offs = 0.5 / float(textureSize(colormap, 0));
float offset = (value - min_val) / (max_val - min_val);
      offset = mix(min_tex_offs, 1.0 - min_tex_offs, clamp(offset, 0.0f, 1.0f));
``` -/
def main_offset {α : Type} [LinearOrderedField α] (textureSize : Int) (value min_val max_val : α) : α :=
  let min_tex_offs : α := 0.5 / (textureSize : α)
  let offset := (value - min_val) / (max_val - min_val)
  mix min_tex_offs (1.0 - min_tex_offs) (clamp offset 0.0 1.0)

/-! ## Machine integers and platform -/

/-- Two's-complement reduction into the signed `w`-bit range. -/
def wrapS (w : Nat) (x : Int) : Int :=
  (x + 2 ^ (w - 1)) % 2 ^ w - 2 ^ (w - 1)

/-- Reduction into the unsigned `w`-bit range. -/
def wrapU (w : Nat) (x : Int) : Int :=
  x % 2 ^ w

/-- What the source leaves to the platform: the width of `intptr_t` and of `void*`, and
the rounding of the `(float)` cast from `double`.  `float` and `double` values are
carried as rationals. -/
structure Platform where
  ptrBits : Nat
  toFloat : ℚ → ℚ

abbrev GLuint := Nat
abbrev ImGuiID := Nat

/-- The conversion `int → ImGuiID` (`unsigned int`) made when an `int` item id is passed
to the pool or stored in `HeatmapData::ID`. -/
def toImGuiID (itemID : Int) : ImGuiID := (wrapU 32 itemID).toNat

/-- The payload of the render callback: `(void*)(intptr_t)itemID`, as an address. -/
def encodeUserCallbackData (pf : Platform) (itemID : Int) : Nat :=
  (wrapU pf.ptrBits (wrapS pf.ptrBits itemID)).toNat

/-- What `RenderCallback` reads back: `(int)(intptr_t)cmd->UserCallbackData`. -/
def decodeUserCallbackData (pf : Platform) (p : Nat) : Int :=
  wrapS 32 (wrapS pf.ptrBits (p : Int))

/-- Modelled from the spec: the element-type tag `ImGuiDataType` (declared in the host
GUI library, not in this file): 8/16/32/64-bit signed and unsigned integers, 32- and
64-bit floats, and the `COUNT` sentinel that closes the enumeration. -/
inductive ImGuiDataType
  | S8 | U8 | S16 | U16 | S32 | U32 | S64 | U64 | Float | Double | COUNT
  deriving DecidableEq, Repr

/-- Modelled from the spec: the host's `ImVec2` (not in this file), a pair of floats used
for screen-space corners and UVs. -/
structure ImVec2 where
  x : ℚ
  y : ℚ
  deriving DecidableEq, Repr

/-- Modelled from the spec: the host's `ImPlotPoint` (not in this file), a pair of doubles
used for the coordinate bounds. -/
structure ImPlotPoint where
  x : ℚ
  y : ℚ
  deriving DecidableEq, Repr

/-- Client memory behind the `const void* values` argument: its address, and what the
three typed reads made by the upload adapters return at element `i`. -/
structure HostPtr where
  addr : Nat
  asS64 : Nat → Int
  asU64 : Nat → Int
  asDouble : Nat → ℚ

/-! ## OpenGL state

The OpenGL entry points are external to the backend.  Each one used by the source is
given here by its effect on a record of the context state, following the OpenGL
specification; calls are taken to succeed (the spec, §4.1 and §7: GPU calls are assumed
non-failing and their errors are not observed at this layer).  Only the two compile-status
queries and the link outcome are left open, as a `CompileOutcome`. -/

inductive GLenum
  | GL_TEXTURE_1D | GL_TEXTURE_2D
  | GL_TEXTURE_WRAP_S | GL_TEXTURE_WRAP_T | GL_TEXTURE_MIN_FILTER | GL_TEXTURE_MAG_FILTER
  | GL_CLAMP_TO_EDGE | GL_MIRRORED_REPEAT | GL_LINEAR | GL_NEAREST
  | GL_R8I | GL_R8UI | GL_R16I | GL_R16UI | GL_R32I | GL_R32UI | GL_R32F | GL_RGB
  | GL_RED | GL_RED_INTEGER | GL_RGBA
  | GL_BYTE | GL_UNSIGNED_BYTE | GL_SHORT | GL_UNSIGNED_SHORT | GL_INT | GL_UNSIGNED_INT
  | GL_FLOAT
  | GL_VERTEX_SHADER | GL_FRAGMENT_SHADER
  deriving DecidableEq, Repr

/-- The `data` argument of a texture upload: either the caller's memory, read by the GPU
API as the `type` argument says, or the contents of one of the scratch buffers. -/
inductive Pixels
  | client (addr : Nat)
  | ints (xs : List Int)
  | floats (xs : List ℚ)
  deriving DecidableEq, Repr

/-- The value held by a uniform slot. -/
inductive UniformValue
  | unset
  | int1 (v : Int)
  | int2 (v0 v1 : Int)
  | float1 (v : ℚ)
  | float2 (v0 v1 : ℚ)
  | mat4 (m : List ℚ)
  deriving DecidableEq, Repr

/-- The shader source assembled by `snprintf` from one of the two templates: the vertex
template takes the two attribute locations, the fragment template the sampler-type
character (a blank or `i`). -/
inductive ShaderSourceText
  | vertex (AttribLocationVtxPos AttribLocationVtxUV : GLuint)
  | fragment (samplerType : Char)
  deriving DecidableEq, Repr

/-- The calls that create, fill or destroy GPU objects, as recorded in `GLState.Calls`.
The first argument of the texture calls is the texture they act on (the one bound to the
target on the active unit). -/
inductive GLCall
  | GenTextures (name : GLuint)
  | DeleteTextures (name : GLuint)
  | TexParameteri (tex : GLuint) (target pname param : GLenum)
  | TexImage1D (tex : GLuint) (internalFormat : GLenum) (width : Int) (format type : GLenum)
      (pixels : Pixels)
  | TexImage2D (tex : GLuint) (internalFormat : GLenum) (width height : Int)
      (format type : GLenum) (pixels : Pixels)
  | CreateShader (type : GLenum) (name : GLuint)
  | ShaderSource (shader : GLuint) (source : ShaderSourceText)
  | CompileShader (shader : GLuint) (compiled : Bool)
  | DeleteShader (shader : GLuint)
  | CreateProgram (name : GLuint)
  | AttachShader (program shader : GLuint)
  | LinkProgram (program : GLuint) (linked : Bool)
  | DetachShader (program shader : GLuint)
  | DeleteProgram (program : GLuint)
  deriving DecidableEq, Repr

/-- The part of the OpenGL context the backend reads or writes. -/
structure GLState where
  /-- Texture names in use. -/
  TextureNames : List GLuint
  /-- Shader-object and program-object names in use. -/
  ObjectNames : List GLuint
  /-- `GL_ACTIVE_TEXTURE`, as a unit index (`GL_TEXTURE0 + i` is `i`). -/
  ActiveTexture : Nat
  /-- `GL_TEXTURE_BINDING_1D` of each unit; 0 is "none". -/
  TextureBinding1D : Nat → GLuint
  /-- `GL_TEXTURE_BINDING_2D` of each unit; 0 is "none". -/
  TextureBinding2D : Nat → GLuint
  /-- `GL_CURRENT_PROGRAM`. -/
  CurrentProgram : GLuint
  /-- Uniform values, by program and location. -/
  Uniforms : GLuint → Int → UniformValue
  /-- What `glGetUniformLocation(program, name)` answers (`-1`: no such uniform). -/
  UniformLocation : GLuint → String → Int
  /-- What `glGetAttribLocation(program, name)` answers. -/
  AttribLocation : GLuint → String → Int
  /-- Object-lifetime and upload calls made so far, oldest first. -/
  Calls : List GLCall

/-- A name that is not in use (and not zero): one above the largest name in use. -/
def freshName (used : List GLuint) : GLuint := used.foldr max 0 + 1

def glGenTextures (gl : GLState) : GLuint × GLState :=
  let name := freshName gl.TextureNames
  (name, { gl with TextureNames := name :: gl.TextureNames,
                   Calls := gl.Calls ++ [GLCall.GenTextures name] })

def glActiveTexture (unit : Nat) (gl : GLState) : GLState :=
  { gl with ActiveTexture := unit }

def glBindTexture (target : GLenum) (texture : GLuint) (gl : GLState) : GLState :=
  if target = GLenum.GL_TEXTURE_2D then
    { gl with TextureBinding2D := Function.update gl.TextureBinding2D gl.ActiveTexture texture }
  else if target = GLenum.GL_TEXTURE_1D then
    { gl with TextureBinding1D := Function.update gl.TextureBinding1D gl.ActiveTexture texture }
  else gl

/-- The texture bound to `target` on the active unit. -/
def boundTexture (target : GLenum) (gl : GLState) : GLuint :=
  if target = GLenum.GL_TEXTURE_2D then gl.TextureBinding2D gl.ActiveTexture
  else if target = GLenum.GL_TEXTURE_1D then gl.TextureBinding1D gl.ActiveTexture
  else 0

def glTexParameteri (target pname param : GLenum) (gl : GLState) : GLState :=
  { gl with Calls := gl.Calls ++ [GLCall.TexParameteri (boundTexture target gl) target pname param] }

def glTexImage2D (target internalFormat : GLenum) (width height : Int) (format type : GLenum)
    (pixels : Pixels) (gl : GLState) : GLState :=
  { gl with Calls := gl.Calls ++
      [GLCall.TexImage2D (boundTexture target gl) internalFormat width height format type pixels] }

def glTexImage1D (target internalFormat : GLenum) (width : Int) (format type : GLenum)
    (pixels : Pixels) (gl : GLState) : GLState :=
  { gl with Calls := gl.Calls ++
      [GLCall.TexImage1D (boundTexture target gl) internalFormat width format type pixels] }

/-- `glDeleteTextures(1, &name)`: the name is released, and a binding that held it
reverts to 0. -/
def glDeleteTextures (name : GLuint) (gl : GLState) : GLState :=
  { gl with TextureNames := gl.TextureNames.filter (fun n => n ≠ name),
            TextureBinding1D := fun u => if gl.TextureBinding1D u = name then 0 else gl.TextureBinding1D u,
            TextureBinding2D := fun u => if gl.TextureBinding2D u = name then 0 else gl.TextureBinding2D u,
            Calls := gl.Calls ++ [GLCall.DeleteTextures name] }

/-- `glUseProgram(program)`.  As everywhere in this model the call is taken to succeed
(the error cases of the GPU API are not modelled). -/
def glUseProgram (program : GLuint) (gl : GLState) : GLState :=
  { gl with CurrentProgram := program }

/-- A call that only leaves a record. -/
def glRecord (c : GLCall) (gl : GLState) : GLState :=
  { gl with Calls := gl.Calls ++ [c] }

def glCreateShader (type : GLenum) (gl : GLState) : GLuint × GLState :=
  let name := freshName gl.ObjectNames
  (name, { gl with ObjectNames := name :: gl.ObjectNames,
                   Calls := gl.Calls ++ [GLCall.CreateShader type name] })

def glCreateProgram (gl : GLState) : GLuint × GLState :=
  let name := freshName gl.ObjectNames
  (name, { gl with ObjectNames := name :: gl.ObjectNames,
                   Calls := gl.Calls ++ [GLCall.CreateProgram name] })

def glDeleteShader (shader : GLuint) (gl : GLState) : GLState :=
  { gl with ObjectNames := gl.ObjectNames.filter (fun n => n ≠ shader),
            Calls := gl.Calls ++ [GLCall.DeleteShader shader] }

/-- `glUniform*`: writes the slot of the current program; location `-1` is ignored. -/
def glUniform (location : Int) (v : UniformValue) (gl : GLState) : GLState :=
  if location = -1 then gl
  else { gl with Uniforms := fun p l =>
           if p = gl.CurrentProgram ∧ l = location then v else gl.Uniforms p l }

/-- `glGetUniformfv(program, location, out)`. -/
def glGetUniformfv (program : GLuint) (location : Int) (gl : GLState) : UniformValue :=
  gl.Uniforms program location

/-- A location held in a `GLuint` field, passed back where a `GLint` is expected. -/
def asGLint (loc : GLuint) : Int := wrapS 32 (loc : Int)

/-- A `GLint` result stored into a `GLuint` field. -/
def asGLuint (v : Int) : GLuint := (wrapU 32 v).toNat

/-! ## Backend data -/

structure HeatmapShader where
  ID : GLuint := 0
  AttribLocationProjection : GLuint := 0
  AttribLocationMinValue : GLuint := 0
  AttribLocationMaxValue : GLuint := 0
  AttribLocationAxisScale : GLuint := 0
  AttribLocationMinBounds : GLuint := 0
  AttribLocationMaxBounds : GLuint := 0
  deriving DecidableEq, Repr

/-- The two values the pointer `HeatmapData::ShaderProgram` takes:
`&Context.ShaderInt` and `&Context.ShaderFloat`. -/
inductive ShaderRef
  | ShaderInt | ShaderFloat
  deriving DecidableEq, Repr

structure HeatmapData where
  ID : ImGuiID
  /-- `none` while the pointer has not been assigned. -/
  ShaderProgram : Option ShaderRef
  HeatmapTexID : GLuint
  ColormapTexID : GLuint
  MinBounds : ImPlotPoint
  MaxBounds : ImPlotPoint
  MinValue : ℚ
  MaxValue : ℚ
  AxisScaleX : Int
  AxisScaleY : Int
  deriving DecidableEq, Repr

/-- The constructor `HeatmapData()`: it generates the data texture and sets its wrap and
filter modes; the other members are left unassigned (zero here). -/
def HeatmapData.new (gl : GLState) : HeatmapData × GLState :=
  let (HeatmapTexID, gl) := glGenTextures gl
  let gl := glBindTexture GLenum.GL_TEXTURE_2D HeatmapTexID gl
  let gl := glTexParameteri GLenum.GL_TEXTURE_2D GLenum.GL_TEXTURE_WRAP_S GLenum.GL_CLAMP_TO_EDGE gl
  let gl := glTexParameteri GLenum.GL_TEXTURE_2D GLenum.GL_TEXTURE_WRAP_T GLenum.GL_CLAMP_TO_EDGE gl
  let gl := glTexParameteri GLenum.GL_TEXTURE_2D GLenum.GL_TEXTURE_MIN_FILTER GLenum.GL_LINEAR gl
  let gl := glTexParameteri GLenum.GL_TEXTURE_2D GLenum.GL_TEXTURE_MAG_FILTER GLenum.GL_LINEAR gl
  let gl := glBindTexture GLenum.GL_TEXTURE_2D 0 gl
  ({ ID := 0, ShaderProgram := none, HeatmapTexID := HeatmapTexID, ColormapTexID := 0,
     MinBounds := ⟨0, 0⟩, MaxBounds := ⟨0, 0⟩, MinValue := 0, MaxValue := 0,
     AxisScaleX := 0, AxisScaleY := 0 }, gl)

/-- The calls made by the constructor `HeatmapData()` on the texture it generates. -/
def constructorCalls (tex : GLuint) : List GLCall :=
  [GLCall.GenTextures tex,
   GLCall.TexParameteri tex GLenum.GL_TEXTURE_2D GLenum.GL_TEXTURE_WRAP_S GLenum.GL_CLAMP_TO_EDGE,
   GLCall.TexParameteri tex GLenum.GL_TEXTURE_2D GLenum.GL_TEXTURE_WRAP_T GLenum.GL_CLAMP_TO_EDGE,
   GLCall.TexParameteri tex GLenum.GL_TEXTURE_2D GLenum.GL_TEXTURE_MIN_FILTER GLenum.GL_LINEAR,
   GLCall.TexParameteri tex GLenum.GL_TEXTURE_2D GLenum.GL_TEXTURE_MAG_FILTER GLenum.GL_LINEAR]

/-- The entry stored under `key`: the first one in buffer order. -/
def lookupKey {T : Type} (key : ImGuiID) : List (ImGuiID × T) → Option T
  | [] => none
  | (k, t) :: rest => if k = key then some t else lookupKey key rest

/-- A write through the pointer to the entry stored under `key`. -/
def modifyKey {T : Type} (key : ImGuiID) (f : T → T) : List (ImGuiID × T) → List (ImGuiID × T)
  | [] => []
  | (k, t) :: rest => if k = key then (k, f t) :: rest else (k, t) :: modifyKey key f rest

/-- Modelled from the spec: the pool container `ImPool` of the host GUI library (not in
this file), a key→entry mapping with lookup-or-create by key, lookup by dense index and
bulk clear.  `Buf` holds the entries in creation order, each with its key. -/
structure ImPool (T : Type) where
  Buf : List (ImGuiID × T) := []

def ImPool.GetBufSize {T : Type} (p : ImPool T) : Nat := p.Buf.length

def ImPool.GetByIndex {T : Type} (p : ImPool T) (n : Nat) : Option T :=
  (p.Buf.get? n).map Prod.snd

def ImPool.GetByKey {T : Type} (p : ImPool T) (key : ImGuiID) : Option T :=
  lookupKey key p.Buf

/-- `GetOrAddByKey(key)`: when no entry is stored under `key`, one is constructed by
`ctor` (the constructor of `T`, which may act on the state `σ`) and appended. -/
def ImPool.GetOrAddByKey {T σ : Type} (p : ImPool T) (key : ImGuiID) (ctor : σ → T × σ)
    (s : σ) : ImPool T × σ :=
  match p.GetByKey key with
  | some _ => (p, s)
  | none =>
    let (t, s) := ctor s
    ({ Buf := p.Buf ++ [(key, t)] }, s)

def ImPool.modify {T : Type} (p : ImPool T) (key : ImGuiID) (f : T → T) : ImPool T :=
  { Buf := modifyKey key f p.Buf }

def ImPool.Clear {T : Type} (_p : ImPool T) : ImPool T := { Buf := [] }

/-- Modelled from the spec: `ImVector::resize` of the host GUI library (not in this file);
the vector gets exactly `new_size` elements, the first ones kept.  New elements are
unassigned (`fill` here); a negative size is taken as 0. -/
def resize {α : Type} (xs : List α) (new_size : Int) (fill : α) : List α :=
  xs.take new_size.toNat ++ List.replicate (new_size.toNat - xs.length) fill

structure ContextData where
  ShaderInt : HeatmapShader := {}
  ShaderFloat : HeatmapShader := {}
  AttribLocationImGuiProjection : GLuint := 0
  ImGuiShader : GLuint := 0
  Heatmaps : ImPool HeatmapData := {}
  ColormapIDs : List GLuint := []
  TempFloat : List ℚ := []
  TempS32 : List Int := []
  TempU32 : List Int := []

def CreateContext : ContextData := {}

def ContextData.shader (Context : ContextData) : ShaderRef → HeatmapShader
  | ShaderRef.ShaderInt => Context.ShaderInt
  | ShaderRef.ShaderFloat => Context.ShaderFloat

/-! ## Host draw list -/

/-- The three callbacks this backend hands to the draw list. -/
inductive ImDrawCallback
  | CreateHeatmapShader | RenderCallback | ResetState
  deriving DecidableEq, Repr

structure ImDrawVert where
  pos : ImVec2
  uv : ImVec2
  col : Nat
  deriving DecidableEq, Repr

inductive ImDrawItem
  | Callback (UserCallback : ImDrawCallback) (UserCallbackData : Nat)
  | Prim (vtx : List ImDrawVert) (idx : List Nat)
  deriving DecidableEq, Repr

/-- Modelled from the spec: the host draw list (`ImDrawList`, not in this file), an
ordered buffer of vertex/index data and embedded callbacks, with append-callback and
append-vertex-data.  `PrimReserve` books room, `PrimRectUV` writes one rectangle into it. -/
structure ImDrawList where
  Items : List ImDrawItem := []
  ReservedIdx : Nat := 0
  ReservedVtx : Nat := 0
  VtxCurrentIdx : Nat := 0
  deriving DecidableEq, Repr

def ImDrawList.AddCallback (dl : ImDrawList) (callback : ImDrawCallback) (callback_data : Nat) :
    ImDrawList :=
  { dl with Items := dl.Items ++ [ImDrawItem.Callback callback callback_data] }

def ImDrawList.PrimReserve (dl : ImDrawList) (idx_count vtx_count : Nat) : ImDrawList :=
  { dl with ReservedIdx := dl.ReservedIdx + idx_count, ReservedVtx := dl.ReservedVtx + vtx_count }

def ImDrawList.PrimRectUV (dl : ImDrawList) (a c uv_a uv_c : ImVec2) (col : Nat) : ImDrawList :=
  let b : ImVec2 := ⟨c.x, a.y⟩
  let d : ImVec2 := ⟨a.x, c.y⟩
  let uv_b : ImVec2 := ⟨uv_c.x, uv_a.y⟩
  let uv_d : ImVec2 := ⟨uv_a.x, uv_c.y⟩
  let idx := dl.VtxCurrentIdx
  { dl with
    Items := dl.Items ++
      [ImDrawItem.Prim [⟨a, uv_a, col⟩, ⟨b, uv_b, col⟩, ⟨c, uv_c, col⟩, ⟨d, uv_d, col⟩]
        [idx, idx + 1, idx + 2, idx, idx + 2, idx + 3]],
    ReservedIdx := dl.ReservedIdx - 6,
    ReservedVtx := dl.ReservedVtx - 4,
    VtxCurrentIdx := dl.VtxCurrentIdx + 4 }

/-! ## Backend operations -/

/-- What the GPU driver answers to the status queries of one `CompileShader` run. -/
structure CompileOutcome where
  vertexCompiled : Bool
  fragmentCompiled : Bool
  linked : Bool
  deriving DecidableEq, Repr

/-- `CompileShader(ShaderProgram, VertexShaderCode, FragmentShaderCode)`.  The two
`GL_COMPILE_STATUS` queries decide the early returns; the link status is not queried. -/
def CompileShader (out : CompileOutcome) (ShaderProgram : HeatmapShader)
    (VertexShaderCode FragmentShaderCode : ShaderSourceText) (gl : GLState) :
    HeatmapShader × GLState :=
  let (VertexShader, gl) := glCreateShader GLenum.GL_VERTEX_SHADER gl
  let gl := glRecord (GLCall.ShaderSource VertexShader VertexShaderCode) gl
  let gl := glRecord (GLCall.CompileShader VertexShader out.vertexCompiled) gl
  if out.vertexCompiled = false then
    (ShaderProgram, glDeleteShader VertexShader gl)
  else
    let (FragmentShader, gl) := glCreateShader GLenum.GL_FRAGMENT_SHADER gl
    let gl := glRecord (GLCall.ShaderSource FragmentShader FragmentShaderCode) gl
    let gl := glRecord (GLCall.CompileShader FragmentShader out.fragmentCompiled) gl
    if out.fragmentCompiled = false then
      (ShaderProgram, glDeleteShader FragmentShader gl)
    else
      let (ID, gl) := glCreateProgram gl
      let ShaderProgram := { ShaderProgram with ID := ID }
      let gl := glRecord (GLCall.AttachShader ShaderProgram.ID VertexShader) gl
      let gl := glRecord (GLCall.AttachShader ShaderProgram.ID FragmentShader) gl
      let gl := glRecord (GLCall.LinkProgram ShaderProgram.ID out.linked) gl
      let gl := glRecord (GLCall.DetachShader ShaderProgram.ID VertexShader) gl
      let gl := glRecord (GLCall.DetachShader ShaderProgram.ID FragmentShader) gl
      let gl := glDeleteShader VertexShader gl
      let gl := glDeleteShader FragmentShader gl
      let ShaderProgram := { ShaderProgram with
        AttribLocationProjection := asGLuint (gl.UniformLocation ShaderProgram.ID "ProjMtx"),
        AttribLocationMinValue := asGLuint (gl.UniformLocation ShaderProgram.ID "min_val"),
        AttribLocationMaxValue := asGLuint (gl.UniformLocation ShaderProgram.ID "max_val"),
        AttribLocationMinBounds := asGLuint (gl.UniformLocation ShaderProgram.ID "bounds_min"),
        AttribLocationMaxBounds := asGLuint (gl.UniformLocation ShaderProgram.ID "bounds_max"),
        AttribLocationAxisScale := asGLuint (gl.UniformLocation ShaderProgram.ID "ax_scale") }
      let gl := glUseProgram ShaderProgram.ID gl
      let gl := glUniform (gl.UniformLocation ShaderProgram.ID "heatmap") (UniformValue.int1 0) gl
      let gl := glUniform (gl.UniformLocation ShaderProgram.ID "colormap") (UniformValue.int1 1) gl
      (ShaderProgram, gl)

/-- The draw-list callback `CreateHeatmapShader`: records the program that is current,
compiles the float variant and then the integer variant, and leaves no program current. -/
def CreateHeatmapShader (outFloat outInt : CompileOutcome) (Context : ContextData)
    (gl : GLState) : ContextData × GLState :=
  let Context := { Context with ImGuiShader := gl.CurrentProgram }
  let Context := { Context with
    AttribLocationImGuiProjection := asGLuint (gl.UniformLocation Context.ImGuiShader "ProjMtx") }
  let AttribLocationVtxPos := asGLuint (gl.AttribLocation Context.ImGuiShader "Position")
  let AttribLocationVtxUV := asGLuint (gl.AttribLocation Context.ImGuiShader "UV")
  let (ShaderFloat, gl) := CompileShader outFloat Context.ShaderFloat
    (ShaderSourceText.vertex AttribLocationVtxPos AttribLocationVtxUV)
    (ShaderSourceText.fragment ' ') gl
  let Context := { Context with ShaderFloat := ShaderFloat }
  let (ShaderInt, gl) := CompileShader outInt Context.ShaderInt
    (ShaderSourceText.vertex AttribLocationVtxPos AttribLocationVtxUV)
    (ShaderSourceText.fragment 'i') gl
  let Context := { Context with ShaderInt := ShaderInt }
  (Context, glUseProgram 0 gl)

/-- The draw-list callback `RenderCallback`.  `none`: the payload names no pool entry, or
the entry has no shader assigned (a null dereference in the source). -/
def RenderCallback (pf : Platform) (UserCallbackData : Nat) (Context : ContextData)
    (gl : GLState) : Option GLState :=
  let itemID := decodeUserCallbackData pf UserCallbackData
  match Context.Heatmaps.GetByKey (toImGuiID itemID) with
  | none => none
  | some data =>
    match data.ShaderProgram with
    | none => none
    | some ref =>
      let ShaderProgram := Context.shader ref
      let OrthoProjection :=
        glGetUniformfv Context.ImGuiShader (asGLint Context.AttribLocationImGuiProjection) gl
      let gl := glUseProgram ShaderProgram.ID gl
      let gl := glBindTexture GLenum.GL_TEXTURE_2D data.HeatmapTexID (glActiveTexture 0 gl)
      let gl := glBindTexture GLenum.GL_TEXTURE_1D data.ColormapTexID (glActiveTexture 1 gl)
      let gl := glUniform (asGLint ShaderProgram.AttribLocationProjection) OrthoProjection gl
      let gl := glUniform (asGLint ShaderProgram.AttribLocationMinValue)
        (UniformValue.float1 data.MinValue) gl
      let gl := glUniform (asGLint ShaderProgram.AttribLocationMaxValue)
        (UniformValue.float1 data.MaxValue) gl
      let gl := glUniform (asGLint ShaderProgram.AttribLocationAxisScale)
        (UniformValue.int2 data.AxisScaleX data.AxisScaleY) gl
      let gl := glUniform (asGLint ShaderProgram.AttribLocationMinBounds)
        (UniformValue.float2 (pf.toFloat data.MinBounds.x) (pf.toFloat data.MinBounds.y)) gl
      let gl := glUniform (asGLint ShaderProgram.AttribLocationMaxBounds)
        (UniformValue.float2 (pf.toFloat data.MaxBounds.x) (pf.toFloat data.MaxBounds.y)) gl
      some gl

/-- The draw-list callback `ResetState`. -/
def ResetState (Context : ContextData) (gl : GLState) : GLState :=
  let gl := glActiveTexture 0 gl
  let gl := glBindTexture GLenum.GL_TEXTURE_2D 0 gl
  glUseProgram Context.ImGuiShader gl

def SetTextureData (textureID : GLuint) (data : Pixels) (rows cols : Int)
    (internalFormat format type : GLenum) (gl : GLState) : GLState :=
  let gl := glBindTexture GLenum.GL_TEXTURE_2D textureID gl
  glTexImage2D GLenum.GL_TEXTURE_2D internalFormat cols rows format type data gl

def AddColormap (keys : Nat) (count : Int) (qual : Bool) (Context : ContextData)
    (gl : GLState) : ContextData × GLState :=
  let (textureID, gl) := glGenTextures gl
  let gl := glBindTexture GLenum.GL_TEXTURE_1D textureID gl
  let gl := glTexImage1D GLenum.GL_TEXTURE_1D GLenum.GL_RGB count GLenum.GL_RGBA
    GLenum.GL_UNSIGNED_BYTE (Pixels.client keys) gl
  let gl := glTexParameteri GLenum.GL_TEXTURE_1D GLenum.GL_TEXTURE_WRAP_S GLenum.GL_MIRRORED_REPEAT gl
  let gl := glTexParameteri GLenum.GL_TEXTURE_1D GLenum.GL_TEXTURE_WRAP_T GLenum.GL_MIRRORED_REPEAT gl
  let gl := glTexParameteri GLenum.GL_TEXTURE_1D GLenum.GL_TEXTURE_MIN_FILTER
    (if qual then GLenum.GL_NEAREST else GLenum.GL_LINEAR) gl
  let gl := glTexParameteri GLenum.GL_TEXTURE_1D GLenum.GL_TEXTURE_MAG_FILTER
    (if qual then GLenum.GL_NEAREST else GLenum.GL_LINEAR) gl
  let gl := glBindTexture GLenum.GL_TEXTURE_1D 0 gl
  ({ Context with ColormapIDs := Context.ColormapIDs ++ [textureID] }, gl)

/-- The loop `for (int i = 0; i < n; i++) Temp[i] = conv(values[i]);` on a scratch buffer. -/
def fillLoop {α β : Type} (conv : α → β) (values : Nat → α) (n : Int) (Temp : List β) : List β :=
  (List.range n.toNat).foldl (fun T i => T.set i (conv (values i))) Temp

/-- `SetHeatmapData(GLuint, const double*, int, int)`.  The `int` product `rows * cols`
is taken with two's-complement wrap-around. -/
def SetHeatmapData_double (pf : Platform) (textureID : GLuint) (values : Nat → ℚ)
    (rows cols : Int) (Context : ContextData) (gl : GLState) : ContextData × GLState :=
  let Context := { Context with TempFloat := resize Context.TempFloat (wrapS 32 (rows * cols)) 0 }
  let Context := { Context with
    TempFloat := fillLoop pf.toFloat values (wrapS 32 (rows * cols)) Context.TempFloat }
  (Context, SetTextureData textureID (Pixels.floats Context.TempFloat) rows cols
    GLenum.GL_R32F GLenum.GL_RED GLenum.GL_FLOAT gl)

/-- `SetHeatmapData(GLuint, const ImS64*, int, int)`; `(ImS32)values[i]` is `wrapS 32`, and
the `int` product `rows * cols` wraps as in `SetHeatmapData_double`. -/
def SetHeatmapData_S64 (textureID : GLuint) (values : Nat → Int)
    (rows cols : Int) (Context : ContextData) (gl : GLState) : ContextData × GLState :=
  let Context := { Context with TempS32 := resize Context.TempS32 (wrapS 32 (rows * cols)) 0 }
  let Context := { Context with
    TempS32 := fillLoop (wrapS 32) values (wrapS 32 (rows * cols)) Context.TempS32 }
  (Context, SetTextureData textureID (Pixels.ints Context.TempS32) rows cols
    GLenum.GL_R32I GLenum.GL_RED_INTEGER GLenum.GL_INT gl)

/-- `SetHeatmapData(GLuint, const ImU64*, int, int)`; `(ImU32)values[i]` is `wrapU 32`, and
the `int` product `rows * cols` wraps as in `SetHeatmapData_double`. -/
def SetHeatmapData_U64 (textureID : GLuint) (values : Nat → Int)
    (rows cols : Int) (Context : ContextData) (gl : GLState) : ContextData × GLState :=
  let Context := { Context with TempU32 := resize Context.TempU32 (wrapS 32 (rows * cols)) 0 }
  let Context := { Context with
    TempU32 := fillLoop (wrapU 32) values (wrapS 32 (rows * cols)) Context.TempU32 }
  (Context, SetTextureData textureID (Pixels.ints Context.TempU32) rows cols
    GLenum.GL_R32UI GLenum.GL_RED_INTEGER GLenum.GL_UNSIGNED_INT gl)

/-- The `switch (data_type)` of `RenderHeatmap`; it has no `default` case. -/
def uploadByType (pf : Platform) (HeatmapTexID : GLuint) (values : HostPtr)
    (data_type : ImGuiDataType) (rows cols : Int) (Context : ContextData) (gl : GLState) :
    ContextData × GLState :=
  match data_type with
  | ImGuiDataType.S8 => (Context, SetTextureData HeatmapTexID (Pixels.client values.addr) rows cols
      GLenum.GL_R8I GLenum.GL_RED_INTEGER GLenum.GL_BYTE gl)
  | ImGuiDataType.U8 => (Context, SetTextureData HeatmapTexID (Pixels.client values.addr) rows cols
      GLenum.GL_R8UI GLenum.GL_RED_INTEGER GLenum.GL_UNSIGNED_BYTE gl)
  | ImGuiDataType.S16 => (Context, SetTextureData HeatmapTexID (Pixels.client values.addr) rows cols
      GLenum.GL_R16I GLenum.GL_RED_INTEGER GLenum.GL_SHORT gl)
  | ImGuiDataType.U16 => (Context, SetTextureData HeatmapTexID (Pixels.client values.addr) rows cols
      GLenum.GL_R16UI GLenum.GL_RED_INTEGER GLenum.GL_UNSIGNED_SHORT gl)
  | ImGuiDataType.S32 => (Context, SetTextureData HeatmapTexID (Pixels.client values.addr) rows cols
      GLenum.GL_R32I GLenum.GL_RED_INTEGER GLenum.GL_INT gl)
  | ImGuiDataType.U32 => (Context, SetTextureData HeatmapTexID (Pixels.client values.addr) rows cols
      GLenum.GL_R32UI GLenum.GL_RED_INTEGER GLenum.GL_UNSIGNED_INT gl)
  | ImGuiDataType.S64 => SetHeatmapData_S64 HeatmapTexID values.asS64 rows cols Context gl
  | ImGuiDataType.U64 => SetHeatmapData_U64 HeatmapTexID values.asU64 rows cols Context gl
  | ImGuiDataType.Float => (Context, SetTextureData HeatmapTexID (Pixels.client values.addr) rows cols
      GLenum.GL_R32F GLenum.GL_RED GLenum.GL_FLOAT gl)
  | ImGuiDataType.Double => SetHeatmapData_double pf HeatmapTexID values.asDouble rows cols Context gl
  | ImGuiDataType.COUNT => (Context, gl)

/-- The assignments `RenderHeatmap` makes through the reference `data`:
```
data.ID = itemID;  data.ColormapTexID = Context.ColormapIDs[cmap];
data.MinValue = scale_min;  data.MaxValue = scale_max;
data.AxisScaleX = scale_x;  data.AxisScaleY = scale_y;
data.MinBounds = bounds_min;  data.MaxBounds = bounds_max;
data.ShaderProgram = (data_type == ImGuiDataType_Float || data_type == ImGuiDataType_Double
                        ? &Context.ShaderFloat : &Context.ShaderInt);
``` -/
def assignEntry (itemID : Int) (ColormapTexID : GLuint) (data_type : ImGuiDataType)
    (scale_min scale_max : ℚ) (scale_x scale_y : Int) (bounds_min bounds_max : ImPlotPoint)
    (data : HeatmapData) : HeatmapData :=
  { data with
    ID := toImGuiID itemID,
    ColormapTexID := ColormapTexID,
    MinValue := scale_min,
    MaxValue := scale_max,
    AxisScaleX := scale_x,
    AxisScaleY := scale_y,
    MinBounds := bounds_min,
    MaxBounds := bounds_max,
    ShaderProgram :=
      if data_type = ImGuiDataType.Float ∨ data_type = ImGuiDataType.Double
      then some ShaderRef.ShaderFloat else some ShaderRef.ShaderInt }

/-- The tail of `RenderHeatmap`, which appends to the draw list:
```
if(Context.ShaderInt.ID == 0 || Context.ShaderFloat.ID == 0)
    DrawList.AddCallback(CreateHeatmapShader, nullptr);
DrawList.AddCallback(RenderCallback, (void*)(intptr_t)itemID);
DrawList.PrimReserve(6, 4);
DrawList.PrimRectUV(coords_min, coords_max, ImVec2(0.0f, reverse_y ? 1.0f : 0.0f),
                    ImVec2(1.0f, reverse_y ? 0.0f : 1.0f), 0);
DrawList.AddCallback(ResetState, nullptr);
``` -/
def appendDrawCommands (pf : Platform) (itemID : Int) (coords_min coords_max : ImVec2)
    (reverse_y : Bool) (Context : ContextData) (DrawList : ImDrawList) : ImDrawList :=
  let DrawList :=
    if Context.ShaderInt.ID = 0 ∨ Context.ShaderFloat.ID = 0
    then DrawList.AddCallback ImDrawCallback.CreateHeatmapShader 0
    else DrawList
  let DrawList := DrawList.AddCallback ImDrawCallback.RenderCallback
    (encodeUserCallbackData pf itemID)
  let DrawList := DrawList.PrimReserve 6 4
  let DrawList := DrawList.PrimRectUV coords_min coords_max
    ⟨0, if reverse_y then 1 else 0⟩ ⟨1, if reverse_y then 0 else 1⟩ 0
  DrawList.AddCallback ImDrawCallback.ResetState 0

/-- `RenderHeatmap`: fetch or create the entry, assign its fields, upload the grid, append
the draw commands.  `none`: `cmap` is not an index of `ColormapIDs` (the source then reads
out of range). -/
def RenderHeatmap (pf : Platform) (itemID : Int) (values : HostPtr) (data_type : ImGuiDataType)
    (rows cols : Int) (scale_min scale_max : ℚ) (scale_x scale_y : Int)
    (coords_min coords_max : ImVec2) (bounds_min bounds_max : ImPlotPoint) (reverse_y : Bool)
    (cmap : Int) (DrawList : ImDrawList) (Context : ContextData) (gl : GLState) :
    Option (ContextData × GLState × ImDrawList) :=
  let (Heatmaps, gl) := Context.Heatmaps.GetOrAddByKey (toImGuiID itemID) HeatmapData.new gl
  let Context := { Context with Heatmaps := Heatmaps }
  if cmap < 0 then none
  else
    match Context.ColormapIDs.get? cmap.toNat with
    | none => none
    | some ColormapTexID =>
      let Heatmaps := Context.Heatmaps.modify (toImGuiID itemID)
        (assignEntry itemID ColormapTexID data_type scale_min scale_max scale_x scale_y
          bounds_min bounds_max)
      let Context := { Context with Heatmaps := Heatmaps }
      match Context.Heatmaps.GetByKey (toImGuiID itemID) with
      | none => none
      | some data =>
        let (Context, gl) := uploadByType pf data.HeatmapTexID values data_type rows cols Context gl
        some (Context, gl,
          appendDrawCommands pf itemID coords_min coords_max reverse_y Context DrawList)

/-- `BustItemCache`: one `glDeleteTextures` per pool entry, in buffer order, then `Clear`. -/
def BustItemCache (Context : ContextData) (gl : GLState) : ContextData × GLState :=
  let gl := Context.Heatmaps.Buf.foldl (fun gl e => glDeleteTextures e.2.HeatmapTexID gl) gl
  ({ Context with Heatmaps := Context.Heatmaps.Clear }, gl)

def BustPlotCache (Context : ContextData) (gl : GLState) : ContextData × GLState :=
  BustItemCache Context gl

/-- An OpenGL context with no object in use and nothing bound. -/
def GLState.initial : GLState :=
  { TextureNames := [], ObjectNames := [], ActiveTexture := 0,
    TextureBinding1D := fun _ => 0, TextureBinding2D := fun _ => 0, CurrentProgram := 0,
    Uniforms := fun _ _ => UniformValue.unset, UniformLocation := fun _ _ => -1,
    AttribLocation := fun _ _ => -1, Calls := [] }

/-! ## Sessions -/

/-- The states a session can be in: it starts from `CreateContext` in any OpenGL state, and
each step is one of the entry points (`AddColormap`, `RenderHeatmap`, `BustItemCache`,
`BustPlotCache`) or one of the three draw-list callbacks run by the host. -/
inductive Reachable : ContextData × GLState → Prop
  | init (gl : GLState) : Reachable (CreateContext, gl)
  | addColormap {C : ContextData} {gl : GLState} (h : Reachable (C, gl))
      (keys : Nat) (count : Int) (qual : Bool) : Reachable (AddColormap keys count qual C gl)
  | renderHeatmap {C : ContextData} {gl : GLState} (h : Reachable (C, gl))
      (pf : Platform) (itemID : Int) (values : HostPtr) (data_type : ImGuiDataType)
      (rows cols : Int) (scale_min scale_max : ℚ) (scale_x scale_y : Int)
      (coords_min coords_max : ImVec2) (bounds_min bounds_max : ImPlotPoint) (reverse_y : Bool)
      (cmap : Int) (DrawList : ImDrawList) (C1 : ContextData) (gl1 : GLState)
      (DrawList1 : ImDrawList)
      (hr : RenderHeatmap pf itemID values data_type rows cols scale_min scale_max scale_x
          scale_y coords_min coords_max bounds_min bounds_max reverse_y cmap DrawList C gl
        = some (C1, gl1, DrawList1)) : Reachable (C1, gl1)
  | bustItemCache {C : ContextData} {gl : GLState} (h : Reachable (C, gl)) :
      Reachable (BustItemCache C gl)
  | bustPlotCache {C : ContextData} {gl : GLState} (h : Reachable (C, gl)) :
      Reachable (BustPlotCache C gl)
  | createHeatmapShader {C : ContextData} {gl : GLState} (h : Reachable (C, gl))
      (outFloat outInt : CompileOutcome) : Reachable (CreateHeatmapShader outFloat outInt C gl)
  | renderCallback {C : ContextData} {gl : GLState} (h : Reachable (C, gl))
      (pf : Platform) (UserCallbackData : Nat) (gl1 : GLState)
      (hr : RenderCallback pf UserCallbackData C gl = some gl1) : Reachable (C, gl1)
  | resetState {C : ContextData} {gl : GLState} (h : Reachable (C, gl)) :
      Reachable (C, ResetState C gl)

/-- The data-texture names held by the pool entries, in buffer order. -/
def heatmapTextures (C : ContextData) : List GLuint :=
  C.Heatmaps.Buf.map (fun e => e.2.HeatmapTexID)

/-- The textures the backend owns are pairwise distinct names, all in use. -/
def TexturesOwned (s : ContextData × GLState) : Prop :=
  (heatmapTextures s.1 ++ s.1.ColormapIDs).Nodup ∧
  ∀ n ∈ heatmapTextures s.1 ++ s.1.ColormapIDs, n ∈ s.2.TextureNames

/-! ## A concrete session -/

/-- A 64-bit platform; the `(float)` cast is taken exact on the values used below. -/
def examplePlatform : Platform := ⟨64, fun q => q⟩

/-- The grid `[[0, 10], [20, 30]]` behind a pointer. -/
def exampleGrid : HostPtr :=
  ⟨4096, fun i => [0, 10, 20, 30].getD i 0, fun i => [0, 10, 20, 30].getD i 0,
    fun i => [0, 10, 20, 30].getD i 0⟩

/-- A fresh context in a fresh OpenGL context, after one `AddColormap` of two stops. -/
def exampleSession : ContextData × GLState :=
  AddColormap 8192 2 false CreateContext GLState.initial

/-- The concrete session after `RenderHeatmap(1, [[0,10],[20,30]], int32, 2, 2, 0, 30,
Linear, Linear, ...)` with colormap 0 on an empty draw list. -/
def exampleRendered : ContextData × GLState × ImDrawList :=
  (RenderHeatmap examplePlatform 1 exampleGrid ImGuiDataType.S32 2 2 0 30 0 0
    ⟨0, 0⟩ ⟨100, 50⟩ ⟨0, 0⟩ ⟨1, 1⟩ false 0 {} exampleSession.1 exampleSession.2).getD
    (exampleSession.1, exampleSession.2, {})

/-- A pool entry for item 1, drawn by the integer shader. -/
def exampleEntry : HeatmapData :=
  { ID := 1, ShaderProgram := some ShaderRef.ShaderInt, HeatmapTexID := 2, ColormapTexID := 1,
    MinBounds := ⟨0, 0⟩, MaxBounds := ⟨1, 1⟩, MinValue := 0, MaxValue := 30,
    AxisScaleX := 0, AxisScaleY := 0 }

/-- A context holding that entry, whose `ImGuiShader` was recorded as program 3 when the
shaders were created. -/
def exampleLaterContext : ContextData :=
  { ShaderInt := { ID := 7 }, ShaderFloat := { ID := 6 }, ImGuiShader := 3,
    Heatmaps := { Buf := [(1, exampleEntry)] }, ColormapIDs := [1] }

/-- An OpenGL state in which the host has program 5 current. -/
def exampleLaterGL : GLState :=
  { GLState.initial with TextureNames := [2, 1], ObjectNames := [7, 6, 5, 3], CurrentProgram := 5 }

/-! ### Facts about the shader -/

theorem log10_rpow (y : ℝ) : log10 ((10 : ℝ) ^ y) = y := by
  have h10 : Real.log 10 ≠ 0 := by
    have : (0 : ℝ) < Real.log 10 := Real.log_pos (by norm_num)
    exact ne_of_gt this
  unfold log10 invln10
  rw [Real.log_rpow (by norm_num : (0 : ℝ) < 10)]
  norm_num

theorem rpow_log10 {x : ℝ} (hx : 0 < x) : (10 : ℝ) ^ (log10 x) = x := by
  have h10 : Real.log 10 ≠ 0 := by
    have : (0 : ℝ) < Real.log 10 := Real.log_pos (by norm_num)
    exact ne_of_gt this
  have e : log10 x = Real.logb 10 x := by
    unfold log10 invln10 Real.logb
    norm_num
    field_simp
  rw [e]
  exact Real.rpow_logb (by norm_num) (by norm_num) hx

theorem mel_melInv (t : ℝ) : mel (melInv t) = t := by
  unfold mel melInv
  have : (1 : ℝ) + 700 * ((10 : ℝ) ^ (t / 2595) - 1) / 700 = (10 : ℝ) ^ (t / 2595) := by ring
  rw [this, log10_rpow]
  ring

theorem erb_erbInv (t : ℝ) : erb (erbInv t) = t := by
  unfold erb erbInv
  have : (1 : ℝ) + 0.00437 * (((10 : ℝ) ^ (t / 21.33228) - 1) / 0.00437)
      = (10 : ℝ) ^ (t / 21.33228) := by
    norm_num
    ring
  rw [this, log10_rpow]
  norm_num
  ring

theorem melInv_mel {f : ℝ} (hf : 0 < f) : melInv (mel f) = f := by
  unfold mel melInv
  have hpos : (0 : ℝ) < 1 + f / 700 := by positivity
  have : 2595 * log10 (1 + f / 700) / 2595 = log10 (1 + f / 700) := by ring
  rw [this, rpow_log10 hpos]
  ring

theorem erbInv_erb {f : ℝ} (hf : 0 < f) : erbInv (erb f) = f := by
  unfold erb erbInv
  have hpos : (0 : ℝ) < 1 + 0.00437 * f := by positivity
  have : 21.33228 * log10 (1 + 0.00437 * f) / 21.33228 = log10 (1 + 0.00437 * f) := by
    norm_num
  rw [this, rpow_log10 hpos]
  norm_num

/-- For the Linear, Logarithmic, Mel and ERB scales the remap hits both ends: UV fraction 0
gives 0 (the value `min_rng`) and UV fraction 1 gives 1 (the value `max_rng`). -/
theorem convert_scale_ends_of_ne_bark (k : Int) (hk : k = 0 ∨ k = 1 ∨ k = 2 ∨ k = 3)
    (min_rng max_rng : ℝ) (h0 : 0 < min_rng) (hlt : min_rng < max_rng) :
    convert_scale k 0 min_rng max_rng = some 0 ∧ convert_scale k 1 min_rng max_rng = some 1 := by
  have hmax : 0 < max_rng := lt_trans h0 hlt
  have hd : max_rng - min_rng ≠ 0 := sub_ne_zero.mpr (ne_of_gt hlt)
  rcases hk with rfl | rfl | rfl | rfl
  · simp [convert_scale]
  · simp only [convert_scale]
    norm_num
    rw [rpow_log10 h0, rpow_log10 hmax]
    exact ⟨by simp, div_self hd⟩
  · simp only [convert_scale]
    norm_num
    rw [melInv_mel h0, melInv_mel hmax]
    exact ⟨by simp, div_self hd⟩
  · simp only [convert_scale]
    norm_num
    rw [erbInv_erb h0, erbInv_erb hmax]
    exact ⟨by simp, div_self hd⟩

/-- The Bark value of 6500 Hz lies strictly between the two thresholds `20.0` (the test in
`bark`) and `20.1` (the test in `barkInv`, and the constant of the correction term of `bark`). -/
theorem bark_6500_in_gap : (20 : ℚ) < bark (6500 : ℚ) ∧ bark (6500 : ℚ) < 20.1 := by
  norm_num [bark]

theorem barkInv_bark_6500 : barkInv (bark (6500 : ℝ)) ≠ 6500 := by
  norm_num [bark, barkInv]

/-- C1, evaluated at the Bark scale with bounds `[1, 6500]`: at UV fraction 1 the
remapped coordinate is not 1, i.e. the recovered value is not `max_rng`. -/
theorem convert_scale_bark_upper_end_ne : convert_scale 4 1 1 6500 ≠ some 1 := by
  norm_num [convert_scale, bark, barkInv]

/-- C2, evaluated at the Bark value `t = bark 6500` (in the image of `bark` over positive
inputs): `bark (barkInv t)` differs from `t`. -/
theorem bark_barkInv_gap_ne :
    (0 : ℝ) < 6500 ∧ bark (barkInv (bark (6500 : ℝ))) ≠ bark (6500 : ℝ) := by
  norm_num [bark, barkInv]

/-- C9: the colormap sampling coordinate of the fragment `main` stays in the interior
`[h, 1 - h]` of the colormap, `h = 0.5 / N` being half a texel; it is `h` for every texel
value at or below `min_val` and `1 - h` for every texel value at or above `max_val`. -/
theorem main_offset_interior (N : Int) (hN : 1 ≤ N) (v min_val max_val : ℝ)
    (hr : min_val < max_val) :
    0.5 / (N : ℝ) ≤ main_offset N v min_val max_val ∧
    main_offset N v min_val max_val ≤ 1 - 0.5 / (N : ℝ) ∧
    (v ≤ min_val → main_offset N v min_val max_val = 0.5 / (N : ℝ)) ∧
    (max_val ≤ v → main_offset N v min_val max_val = 1 - 0.5 / (N : ℝ)) := by
  have hNr : (1 : ℝ) ≤ (N : ℝ) := by exact_mod_cast hN
  have hd : 0 < max_val - min_val := sub_pos.mpr hr
  have hh : (0.5 : ℝ) / (N : ℝ) ≤ 1 / 2 := by
    rw [div_le_iff₀ (by linarith)]
    norm_num
    linarith
  have hc0 : (0 : ℝ) ≤ clamp ((v - min_val) / (max_val - min_val)) 0.0 1.0 := by
    unfold clamp
    norm_num
  have hc1 : clamp ((v - min_val) / (max_val - min_val)) 0.0 1.0 ≤ (1 : ℝ) := by
    unfold clamp
    norm_num
  have key : main_offset N v min_val max_val
      = 0.5 / (N : ℝ) + (1 - 2 * (0.5 / (N : ℝ)))
          * clamp ((v - min_val) / (max_val - min_val)) 0.0 1.0 := by
    unfold main_offset mix
    norm_num
    ring
  refine ⟨?_, ?_, ?_, ?_⟩
  · rw [key]
    have : 0 ≤ (1 - 2 * (0.5 / (N : ℝ)))
        * clamp ((v - min_val) / (max_val - min_val)) 0.0 1.0 :=
      mul_nonneg (by linarith) hc0
    linarith
  · rw [key]
    have : (1 - 2 * (0.5 / (N : ℝ)))
        * clamp ((v - min_val) / (max_val - min_val)) 0.0 1.0
        ≤ (1 - 2 * (0.5 / (N : ℝ))) * 1 :=
      mul_le_mul_of_nonneg_left hc1 (by linarith)
    linarith
  · intro hv
    have ho : (v - min_val) / (max_val - min_val) ≤ 0 :=
      div_nonpos_of_nonpos_of_nonneg (by linarith) hd.le
    have : clamp ((v - min_val) / (max_val - min_val)) 0.0 1.0 = (0 : ℝ) := by
      unfold clamp
      norm_num
      rw [sup_of_le_right ho]
      norm_num
    rw [key, this]
    ring
  · intro hv
    have ho : 1 ≤ (v - min_val) / (max_val - min_val) := by
      rw [le_div_iff₀ hd]
      linarith
    have : clamp ((v - min_val) / (max_val - min_val)) 0.0 1.0 = (1 : ℝ) := by
      unfold clamp
      norm_num
      exact ho
    rw [key, this]
    ring

/-- C9 at a colormap of two stops, the range `[0, 30]` and the texel value `0`. -/
theorem main_offset_interior_witness :
    (0.5 : ℝ) / ((2 : Int) : ℝ) ≤ main_offset 2 0 0 30 ∧
    main_offset 2 (0 : ℝ) 0 30 ≤ 1 - 0.5 / ((2 : Int) : ℝ) ∧
    ((0 : ℝ) ≤ 0 → main_offset 2 (0 : ℝ) 0 30 = 0.5 / ((2 : Int) : ℝ)) ∧
    ((30 : ℝ) ≤ 0 → main_offset 2 (0 : ℝ) 0 30 = 1 - 0.5 / ((2 : Int) : ℝ)) :=
  main_offset_interior 2 (by decide) 0 0 30 (by norm_num)

/-! ### Machine integers -/

theorem two_pow_split (w : Nat) (hw : 1 ≤ w) : (2 : Int) ^ w = 2 * 2 ^ (w - 1) := by
  obtain ⟨k, rfl⟩ : ∃ k, w = k + 1 := ⟨w - 1, by omega⟩
  simp [pow_succ, mul_comm]

theorem wrapS_of_range (w : Nat) (hw : 1 ≤ w) (x : Int)
    (h1 : -(2 : Int) ^ (w - 1) ≤ x) (h2 : x < (2 : Int) ^ (w - 1)) : wrapS w x = x := by
  unfold wrapS
  have hs := two_pow_split w hw
  rw [Int.emod_eq_of_lt (by omega) (by omega)]
  omega

theorem wrapS_emod (w : Nat) (x : Int) : wrapS w (x % 2 ^ w) = wrapS w x := by
  unfold wrapS
  rw [Int.emod_add_emod]

theorem wrapS_range (w : Nat) (hw : 1 ≤ w) (x : Int) :
    -(2 : Int) ^ (w - 1) ≤ wrapS w x ∧ wrapS w x < (2 : Int) ^ (w - 1) := by
  unfold wrapS
  have hs := two_pow_split w hw
  have hpos : (0 : Int) < 2 ^ w := by positivity
  have h1 := Int.emod_nonneg (x + 2 ^ (w - 1)) (ne_of_gt hpos)
  have h2 := Int.emod_lt_of_pos (x + 2 ^ (w - 1)) hpos
  omega

theorem wrapS_congr (w : Nat) (x : Int) : (2 : Int) ^ w ∣ x - wrapS w x := by
  unfold wrapS
  have h := Int.emod_add_ediv (x + 2 ^ (w - 1)) (2 ^ w)
  refine ⟨(x + 2 ^ (w - 1)) / 2 ^ w, ?_⟩
  linarith

theorem wrapU_range (w : Nat) (x : Int) : 0 ≤ wrapU w x ∧ wrapU w x < (2 : Int) ^ w := by
  unfold wrapU
  have hpos : (0 : Int) < 2 ^ w := by positivity
  exact ⟨Int.emod_nonneg x (ne_of_gt hpos), Int.emod_lt_of_pos x hpos⟩

theorem wrapU_congr (w : Nat) (x : Int) : (2 : Int) ^ w ∣ x - wrapU w x := by
  unfold wrapU
  exact Int.dvd_sub_of_emod_eq rfl

theorem wrapU_of_range (w : Nat) (x : Int) (h1 : 0 ≤ x) (h2 : x < (2 : Int) ^ w) :
    wrapU w x = x := by
  unfold wrapU
  exact Int.emod_eq_of_lt h1 h2

/-- The payload of the render callback decodes back to the item id. -/
theorem decode_encode (pf : Platform) (hp : 32 ≤ pf.ptrBits) (itemID : Int)
    (h1 : -(2 : Int) ^ 31 ≤ itemID) (h2 : itemID < (2 : Int) ^ 31) :
    decodeUserCallbackData pf (encodeUserCallbackData pf itemID) = itemID := by
  unfold decodeUserCallbackData encodeUserCallbackData
  have hle : (2 : Int) ^ 31 ≤ 2 ^ (pf.ptrBits - 1) :=
    pow_le_pow_right₀ (by norm_num) (by omega)
  have hin : wrapS pf.ptrBits itemID = itemID :=
    wrapS_of_range pf.ptrBits (by omega) itemID (by omega) (by omega)
  rw [hin]
  have hnn : 0 ≤ wrapU pf.ptrBits itemID := (wrapU_range pf.ptrBits itemID).1
  rw [Int.toNat_of_nonneg hnn]
  unfold wrapU
  rw [wrapS_emod, hin]
  exact wrapS_of_range 32 (by omega) itemID (by simpa using h1) (by simpa using h2)

/-! ### Scratch buffers -/

theorem length_resize {α : Type} (xs : List α) (n : Int) (fill : α) :
    (resize xs n fill).length = n.toNat := by
  unfold resize
  simp
  omega

theorem foldl_set_range {β : Type} (g : Nat → β) (T : List β) :
    ∀ k, k ≤ T.length →
      (List.range k).foldl (fun T i => T.set i (g i)) T = (List.range k).map g ++ T.drop k := by
  intro k
  induction k with
  | zero => intro _; simp
  | succ k ih =>
    intro hk
    have hk1 : k < T.length := by omega
    rw [List.range_succ, List.foldl_append, ih (by omega)]
    simp only [List.foldl_cons, List.foldl_nil, List.map_append, List.map_cons, List.map_nil]
    rw [List.set_append_right _ _ (by simp)]
    simp only [List.length_map, List.length_range, Nat.sub_self]
    rw [List.drop_eq_getElem_cons hk1, List.set_cons_zero]
    simp

theorem fillLoop_resize {α β : Type} (conv : α → β) (values : Nat → α) (n : Int) (xs : List β)
    (fill : β) :
    fillLoop conv values n (resize xs n fill) = (List.range n.toNat).map (fun i => conv (values i)) := by
  unfold fillLoop
  rw [foldl_set_range (fun i => conv (values i)) _ n.toNat (by rw [length_resize])]
  rw [List.drop_of_length_le (by rw [length_resize])]
  simp

theorem SetTextureData_Calls (textureID : GLuint) (data : Pixels) (rows cols : Int)
    (internalFormat format type : GLenum) (gl : GLState) :
    (SetTextureData textureID data rows cols internalFormat format type gl).Calls
      = gl.Calls ++ [GLCall.TexImage2D textureID internalFormat cols rows format type data] := by
  simp [SetTextureData, glTexImage2D, glBindTexture, boundTexture]

theorem SetTextureData_TextureNames (textureID : GLuint) (data : Pixels) (rows cols : Int)
    (internalFormat format type : GLenum) (gl : GLState) :
    (SetTextureData textureID data rows cols internalFormat format type gl).TextureNames
      = gl.TextureNames := by
  simp [SetTextureData, glTexImage2D, glBindTexture]

/-- C10 (as amended): when `rows * cols` fits an `int`, the 64-bit upload adapters leave
the 32-bit scratch buffer with exactly `rows * cols` elements, upload that buffer as a
32-bit integer texture, and element `i` of it is `values[i]` reduced modulo `2^32` into the
signed (resp. unsigned) 32-bit range, hence `values[i]` itself when that fits 32 bits. -/
theorem SetHeatmapData_64_narrowing (textureID : GLuint) (values : Nat → Int) (rows cols : Int)
    (hr : 0 ≤ rows) (hc : 0 ≤ cols) (hsz : rows * cols < 2 ^ 31)
    (Context : ContextData) (gl : GLState) :
    (((SetHeatmapData_S64 textureID values rows cols Context gl).1.TempS32.length : Int)
        = rows * cols ∧
      (SetHeatmapData_S64 textureID values rows cols Context gl).2.Calls
        = gl.Calls ++ [GLCall.TexImage2D textureID GLenum.GL_R32I cols rows GLenum.GL_RED_INTEGER
            GLenum.GL_INT
            (Pixels.ints (SetHeatmapData_S64 textureID values rows cols Context gl).1.TempS32)] ∧
      ∀ i : Nat, (i : Int) < rows * cols →
        ∃ s, (SetHeatmapData_S64 textureID values rows cols Context gl).1.TempS32[i]? = some s ∧
          -(2 : Int) ^ 31 ≤ s ∧ s < 2 ^ 31 ∧ (2 : Int) ^ 32 ∣ values i - s ∧
          (-(2 : Int) ^ 31 ≤ values i → values i < 2 ^ 31 → s = values i)) ∧
    (((SetHeatmapData_U64 textureID values rows cols Context gl).1.TempU32.length : Int)
        = rows * cols ∧
      (SetHeatmapData_U64 textureID values rows cols Context gl).2.Calls
        = gl.Calls ++ [GLCall.TexImage2D textureID GLenum.GL_R32UI cols rows GLenum.GL_RED_INTEGER
            GLenum.GL_UNSIGNED_INT
            (Pixels.ints (SetHeatmapData_U64 textureID values rows cols Context gl).1.TempU32)] ∧
      ∀ i : Nat, (i : Int) < rows * cols →
        ∃ s, (SetHeatmapData_U64 textureID values rows cols Context gl).1.TempU32[i]? = some s ∧
          0 ≤ s ∧ s < 2 ^ 32 ∧ (2 : Int) ^ 32 ∣ values i - s ∧
          (0 ≤ values i → values i < 2 ^ 32 → s = values i)) := by
  have hnn : 0 ≤ rows * cols := mul_nonneg hr hc
  have hw : wrapS 32 (rows * cols) = rows * cols :=
    wrapS_of_range 32 (by omega) (rows * cols) (by simp; omega) (by simpa using hsz)
  have hcast : (((rows * cols).toNat : Nat) : Int) = rows * cols := Int.toNat_of_nonneg hnn
  refine ⟨⟨?_, ?_, ?_⟩, ?_, ?_, ?_⟩
  · simp only [SetHeatmapData_S64, fillLoop_resize, hw, List.length_map, List.length_range]
    exact hcast
  · simp only [SetHeatmapData_S64, SetTextureData_Calls]
  · intro i hi
    have hi' : i < (rows * cols).toNat := by omega
    refine ⟨wrapS 32 (values i), ?_, (wrapS_range 32 (by omega) _).1,
      (wrapS_range 32 (by omega) _).2, wrapS_congr 32 _, ?_⟩
    · simp only [SetHeatmapData_S64, fillLoop_resize, hw, List.getElem?_map,
        List.getElem?_range hi', Option.map_some']
    · intro h1 h2
      exact wrapS_of_range 32 (by omega) _ (by simpa using h1) (by simpa using h2)
  · simp only [SetHeatmapData_U64, fillLoop_resize, hw, List.length_map, List.length_range]
    exact hcast
  · simp only [SetHeatmapData_U64, SetTextureData_Calls]
  · intro i hi
    have hi' : i < (rows * cols).toNat := by omega
    refine ⟨wrapU 32 (values i), ?_, (wrapU_range 32 _).1, (wrapU_range 32 _).2,
      wrapU_congr 32 _, ?_⟩
    · simp only [SetHeatmapData_U64, fillLoop_resize, hw, List.getElem?_map,
        List.getElem?_range hi', Option.map_some']
    · intro h1 h2
      exact wrapU_of_range 32 _ h1 h2

/-- C10 at a 2×2 grid holding `0`, `10`, `-20` and `2^32 + 5`: the scratch buffer gets four
elements, and the last one is a 32-bit value congruent to `2^32 + 5`. -/
theorem SetHeatmapData_64_narrowing_witness :
    (0 : Int) ≤ 2 ∧ (2 : Int) * 2 < 2 ^ 31 ∧
    (((SetHeatmapData_S64 1 (fun i => [0, 10, -20, 2 ^ 32 + 5].getD i 0) 2 2
        CreateContext GLState.initial).1.TempS32.length : Int) = 2 * 2) ∧
    (∃ s, (SetHeatmapData_S64 1 (fun i => [0, 10, -20, 2 ^ 32 + 5].getD i 0) 2 2
        CreateContext GLState.initial).1.TempS32[3]? = some s ∧
      -(2 : Int) ^ 31 ≤ s ∧ s < 2 ^ 31 ∧
      (2 : Int) ^ 32 ∣ (fun i => [0, 10, -20, 2 ^ 32 + 5].getD i 0) 3 - s ∧
      (-(2 : Int) ^ 31 ≤ (fun i => [0, 10, -20, 2 ^ 32 + 5].getD i 0) 3 →
        (fun i => [0, 10, -20, 2 ^ 32 + 5].getD i 0) 3 < 2 ^ 31 →
        s = (fun i => [0, 10, -20, 2 ^ 32 + 5].getD i 0) 3)) :=
  ⟨by decide, by decide,
    (SetHeatmapData_64_narrowing 1 (fun i => [0, 10, -20, 2 ^ 32 + 5].getD i 0) 2 2
      (by decide) (by decide) (by decide) CreateContext GLState.initial).1.1,
    (SetHeatmapData_64_narrowing 1 (fun i => [0, 10, -20, 2 ^ 32 + 5].getD i 0) 2 2
      (by decide) (by decide) (by decide) CreateContext GLState.initial).1.2.2 3 (by decide)⟩

/-- C10 as stated fails at `rows = cols = 65536`: the `int` product `rows * cols` wraps to
0, so the scratch buffer is left with no element instead of `65536 * 65536`. -/
theorem SetHeatmapData_S64_overflow :
    (0 : Int) ≤ 65536 ∧
    ((SetHeatmapData_S64 1 (fun _ => 0) 65536 65536 CreateContext GLState.initial).1.TempS32.length
      : Int) ≠ 65536 * 65536 := by
  refine ⟨by decide, ?_⟩
  have h : wrapS 32 (65536 * 65536) = 0 := by decide
  simp only [SetHeatmapData_S64, fillLoop_resize, h]
  decide

/-! ### Fresh names -/

theorem freshName_pos (used : List GLuint) : freshName used ≠ 0 :=
  Nat.succ_ne_zero _

theorem le_foldr_max (used : List GLuint) : ∀ n ∈ used, n ≤ used.foldr max 0 := by
  induction used with
  | nil => intro n hn; cases hn
  | cons a rest ih =>
    intro n hn
    simp only [List.foldr_cons]
    rcases List.mem_cons.mp hn with h | h
    · subst h; exact le_max_left _ _
    · exact le_trans (ih n h) (le_max_right _ _)

theorem freshName_not_mem (used : List GLuint) : freshName used ∉ used := by
  intro h
  exact Nat.not_succ_le_self _ (le_foldr_max used _ h)

/-! ### The pool -/

theorem lookupKey_append_of_none {T : Type} (key : ImGuiID) (l l2 : List (ImGuiID × T))
    (h : lookupKey key l = none) : lookupKey key (l ++ l2) = lookupKey key l2 := by
  induction l with
  | nil => rfl
  | cons e rest ih =>
    obtain ⟨k, t⟩ := e
    simp only [lookupKey, List.cons_append] at h ⊢
    by_cases hk : k = key
    · simp [hk] at h
    · simp only [hk, if_false] at h ⊢
      exact ih h

theorem lookupKey_modifyKey {T : Type} (key : ImGuiID) (f : T → T) (l : List (ImGuiID × T)) :
    lookupKey key (modifyKey key f l) = (lookupKey key l).map f := by
  induction l with
  | nil => rfl
  | cons e rest ih =>
    obtain ⟨k, t⟩ := e
    by_cases hk : k = key
    · simp [lookupKey, modifyKey, hk]
    · simp [lookupKey, modifyKey, hk, ih]

theorem modifyKey_idem {T : Type} (key : ImGuiID) (f : T → T) (hf : ∀ t, f (f t) = f t)
    (l : List (ImGuiID × T)) : modifyKey key f (modifyKey key f l) = modifyKey key f l := by
  induction l with
  | nil => rfl
  | cons e rest ih =>
    obtain ⟨k, t⟩ := e
    by_cases hk : k = key
    · simp [modifyKey, hk, hf]
    · simp [modifyKey, hk, ih]

theorem length_modifyKey {T : Type} (key : ImGuiID) (f : T → T) (l : List (ImGuiID × T)) :
    (modifyKey key f l).length = l.length := by
  induction l with
  | nil => rfl
  | cons e rest ih =>
    obtain ⟨k, t⟩ := e
    by_cases hk : k = key
    · simp [modifyKey, hk]
    · simp [modifyKey, hk, ih]

theorem map_modifyKey {T U : Type} (key : ImGuiID) (f : T → T) (g : T → U)
    (hg : ∀ t, g (f t) = g t) (l : List (ImGuiID × T)) :
    (modifyKey key f l).map (fun e => g e.2) = l.map (fun e => g e.2) := by
  induction l with
  | nil => rfl
  | cons e rest ih =>
    obtain ⟨k, t⟩ := e
    by_cases hk : k = key
    · simp [modifyKey, hk, hg]
    · simp [modifyKey, hk, ih]

theorem GetOrAddByKey_of_some {T σ : Type} (p : ImPool T) (key : ImGuiID) (ctor : σ → T × σ)
    (s : σ) (t : T) (h : p.GetByKey key = some t) : p.GetOrAddByKey key ctor s = (p, s) := by
  simp [ImPool.GetOrAddByKey, h]

theorem GetOrAddByKey_of_none {T σ : Type} (p : ImPool T) (key : ImGuiID) (ctor : σ → T × σ)
    (s : σ) (h : p.GetByKey key = none) :
    p.GetOrAddByKey key ctor s = ({ Buf := p.Buf ++ [(key, (ctor s).1)] }, (ctor s).2) := by
  simp [ImPool.GetOrAddByKey, h]

/-- After `GetOrAddByKey(key)` there is an entry under `key`. -/
theorem GetOrAddByKey_GetByKey {T σ : Type} (p : ImPool T) (key : ImGuiID) (ctor : σ → T × σ)
    (s : σ) : ∃ t, (p.GetOrAddByKey key ctor s).1.GetByKey key = some t := by
  cases h : p.GetByKey key with
  | some t => exact ⟨t, by rw [GetOrAddByKey_of_some p key ctor s t h]; exact h⟩
  | none =>
    refine ⟨(ctor s).1, ?_⟩
    rw [GetOrAddByKey_of_none p key ctor s h]
    unfold ImPool.GetByKey at h ⊢
    simp [lookupKey_append_of_none key p.Buf _ h, lookupKey]

/-! ### The upload switch -/

theorem uploadByType_Context (pf : Platform) (tex : GLuint) (values : HostPtr)
    (data_type : ImGuiDataType) (rows cols : Int) (Context : ContextData) (gl : GLState) :
    (uploadByType pf tex values data_type rows cols Context gl).1.Heatmaps = Context.Heatmaps ∧
    (uploadByType pf tex values data_type rows cols Context gl).1.ColormapIDs
      = Context.ColormapIDs ∧
    (uploadByType pf tex values data_type rows cols Context gl).1.ShaderInt = Context.ShaderInt ∧
    (uploadByType pf tex values data_type rows cols Context gl).1.ShaderFloat
      = Context.ShaderFloat ∧
    (uploadByType pf tex values data_type rows cols Context gl).1.ImGuiShader
      = Context.ImGuiShader := by
  cases data_type <;> exact ⟨rfl, rfl, rfl, rfl, rfl⟩

theorem uploadByType_TextureNames (pf : Platform) (tex : GLuint) (values : HostPtr)
    (data_type : ImGuiDataType) (rows cols : Int) (Context : ContextData) (gl : GLState) :
    (uploadByType pf tex values data_type rows cols Context gl).2.TextureNames
      = gl.TextureNames := by
  cases data_type <;>
    simp [uploadByType, SetHeatmapData_S64, SetHeatmapData_U64, SetHeatmapData_double,
      SetTextureData_TextureNames]

/-- The upload switch makes at most one call, a `glTexImage2D` on `tex`. -/
theorem uploadByType_Calls (pf : Platform) (tex : GLuint) (values : HostPtr)
    (data_type : ImGuiDataType) (rows cols : Int) (Context : ContextData) (gl : GLState) :
    (uploadByType pf tex values data_type rows cols Context gl).2.Calls = gl.Calls ∨
    ∃ internalFormat format type pixels,
      (uploadByType pf tex values data_type rows cols Context gl).2.Calls
        = gl.Calls ++ [GLCall.TexImage2D tex internalFormat cols rows format type pixels] := by
  cases data_type
  case COUNT => exact Or.inl rfl
  all_goals
    right
    simp only [uploadByType, SetHeatmapData_S64, SetHeatmapData_U64, SetHeatmapData_double,
      SetTextureData_Calls]
    exact ⟨_, _, _, _, rfl⟩

/-! ### The entry constructor -/

theorem HeatmapData_new_spec (gl : GLState) :
    (HeatmapData.new gl).1.HeatmapTexID = freshName gl.TextureNames ∧
    (HeatmapData.new gl).2.TextureNames = freshName gl.TextureNames :: gl.TextureNames ∧
    (HeatmapData.new gl).2.Calls = gl.Calls ++ constructorCalls (freshName gl.TextureNames) := by
  refine ⟨rfl, rfl, ?_⟩
  simp [HeatmapData.new, glGenTextures, glBindTexture, glTexParameteri, boundTexture,
    constructorCalls]

/-- The calls `GetOrAddByKey` makes: none when the key is present, those of the
constructor otherwise. -/
theorem GetOrAddByKey_Calls (p : ImPool HeatmapData) (key : ImGuiID) (gl : GLState) :
    ∃ pre, (p.GetOrAddByKey key HeatmapData.new gl).2.Calls = gl.Calls ++ pre ∧
      (pre = [] ∨ pre = constructorCalls (freshName gl.TextureNames)) := by
  cases h : p.GetByKey key with
  | some t => exact ⟨[], by rw [GetOrAddByKey_of_some p key _ gl t h]; simp, Or.inl rfl⟩
  | none =>
    refine ⟨constructorCalls (freshName gl.TextureNames), ?_, Or.inr rfl⟩
    rw [GetOrAddByKey_of_none p key _ gl h]
    exact (HeatmapData_new_spec gl).2.2

/-! ### `RenderHeatmap` -/

section Render

variable (pf : Platform) (itemID : Int) (values : HostPtr) (data_type : ImGuiDataType)
  (rows cols : Int) (scale_min scale_max : ℚ) (scale_x scale_y : Int)
  (coords_min coords_max : ImVec2) (bounds_min bounds_max : ImPlotPoint) (reverse_y : Bool)
  (cmap : Int) (DrawList : ImDrawList) (Context : ContextData) (gl : GLState)

/-- With a registered colormap index `RenderHeatmap` returns, and its result is made of
the pool after fetch-or-create and the field assignments, the upload, and the draw
commands. -/
theorem RenderHeatmap_some (hc : 0 ≤ cmap) (hlt : cmap < Context.ColormapIDs.length) :
    ∃ ColormapTexID t Heatmaps U,
      Context.ColormapIDs.get? cmap.toNat = some ColormapTexID ∧
      (Context.Heatmaps.GetOrAddByKey (toImGuiID itemID) HeatmapData.new gl).1.GetByKey
          (toImGuiID itemID) = some t ∧
      Heatmaps = (Context.Heatmaps.GetOrAddByKey (toImGuiID itemID) HeatmapData.new gl).1.modify
          (toImGuiID itemID)
          (assignEntry itemID ColormapTexID data_type scale_min scale_max scale_x scale_y
            bounds_min bounds_max) ∧
      Heatmaps.GetByKey (toImGuiID itemID)
        = some (assignEntry itemID ColormapTexID data_type scale_min scale_max scale_x scale_y
            bounds_min bounds_max t) ∧
      U = uploadByType pf t.HeatmapTexID values data_type rows cols
            { Context with Heatmaps := Heatmaps }
            (Context.Heatmaps.GetOrAddByKey (toImGuiID itemID) HeatmapData.new gl).2 ∧
      RenderHeatmap pf itemID values data_type rows cols scale_min scale_max scale_x scale_y
          coords_min coords_max bounds_min bounds_max reverse_y cmap DrawList Context gl
        = some (U.1, U.2,
            appendDrawCommands pf itemID coords_min coords_max reverse_y U.1 DrawList) := by
  have hidx : cmap.toNat < Context.ColormapIDs.length := by omega
  obtain ⟨t, ht⟩ := GetOrAddByKey_GetByKey Context.Heatmaps (toImGuiID itemID) HeatmapData.new gl
  have hmod : lookupKey (toImGuiID itemID)
      (modifyKey (toImGuiID itemID)
        (assignEntry itemID Context.ColormapIDs[cmap.toNat] data_type scale_min scale_max
          scale_x scale_y bounds_min bounds_max)
        (Context.Heatmaps.GetOrAddByKey (toImGuiID itemID) HeatmapData.new gl).1.Buf)
      = some (assignEntry itemID Context.ColormapIDs[cmap.toNat] data_type scale_min
          scale_max scale_x scale_y bounds_min bounds_max t) := by
    unfold ImPool.GetByKey at ht
    simp only [lookupKey_modifyKey, ht, Option.map_some']
  have hget : Context.ColormapIDs.get? cmap.toNat = some Context.ColormapIDs[cmap.toNat] := by
    simp [hidx]
  refine ⟨Context.ColormapIDs[cmap.toNat], t, _, _, hget, ht, rfl, hmod, rfl, ?_⟩
  have hnot : ¬ cmap < 0 := by omega
  simp only [RenderHeatmap, hnot, if_false, hget, ImPool.GetByKey, ImPool.modify, hmod]
  rfl

theorem appendDrawCommands_Items (C : ContextData) :
    (appendDrawCommands pf itemID coords_min coords_max reverse_y C DrawList).Items
      = DrawList.Items
        ++ (if C.ShaderInt.ID = 0 ∨ C.ShaderFloat.ID = 0
            then [ImDrawItem.Callback ImDrawCallback.CreateHeatmapShader 0] else [])
        ++ [ImDrawItem.Callback ImDrawCallback.RenderCallback (encodeUserCallbackData pf itemID),
            ImDrawItem.Prim
              [⟨coords_min, ⟨0, if reverse_y then 1 else 0⟩, 0⟩,
               ⟨⟨coords_max.x, coords_min.y⟩, ⟨1, if reverse_y then 1 else 0⟩, 0⟩,
               ⟨coords_max, ⟨1, if reverse_y then 0 else 1⟩, 0⟩,
               ⟨⟨coords_min.x, coords_max.y⟩, ⟨0, if reverse_y then 0 else 1⟩, 0⟩]
              [DrawList.VtxCurrentIdx, DrawList.VtxCurrentIdx + 1, DrawList.VtxCurrentIdx + 2,
               DrawList.VtxCurrentIdx, DrawList.VtxCurrentIdx + 2, DrawList.VtxCurrentIdx + 3],
            ImDrawItem.Callback ImDrawCallback.ResetState 0] := by
  unfold appendDrawCommands
  by_cases h : C.ShaderInt.ID = 0 ∨ C.ShaderFloat.ID = 0
  · simp [h, ImDrawList.AddCallback, ImDrawList.PrimReserve, ImDrawList.PrimRectUV]
  · simp [h, ImDrawList.AddCallback, ImDrawList.PrimReserve, ImDrawList.PrimRectUV]

/-- C7: the draw list after `RenderHeatmap` is the draw list before it followed by the
ensure-shader callback (exactly when one of the two programs is uncompiled at call time),
the render callback whose payload decodes back to the item id, one rectangle of four
vertices and six indices with UVs `(0,0)-(1,1)` (`(0,1)-(1,0)` when `reverse_y` is set),
and the reset callback. -/
theorem RenderHeatmap_draw_list (hp : 32 ≤ pf.ptrBits)
    (h1 : -(2 : Int) ^ 31 ≤ itemID) (h2 : itemID < (2 : Int) ^ 31)
    (hc : 0 ≤ cmap) (hlt : cmap < Context.ColormapIDs.length) :
    ∃ Context1 gl1 DrawList1,
      RenderHeatmap pf itemID values data_type rows cols scale_min scale_max scale_x scale_y
          coords_min coords_max bounds_min bounds_max reverse_y cmap DrawList Context gl
        = some (Context1, gl1, DrawList1) ∧
      DrawList1.Items
        = DrawList.Items
          ++ (if Context.ShaderInt.ID = 0 ∨ Context.ShaderFloat.ID = 0
              then [ImDrawItem.Callback ImDrawCallback.CreateHeatmapShader 0] else [])
          ++ [ImDrawItem.Callback ImDrawCallback.RenderCallback
                (encodeUserCallbackData pf itemID),
              ImDrawItem.Prim
                [⟨coords_min, ⟨0, if reverse_y then 1 else 0⟩, 0⟩,
                 ⟨⟨coords_max.x, coords_min.y⟩, ⟨1, if reverse_y then 1 else 0⟩, 0⟩,
                 ⟨coords_max, ⟨1, if reverse_y then 0 else 1⟩, 0⟩,
                 ⟨⟨coords_min.x, coords_max.y⟩, ⟨0, if reverse_y then 0 else 1⟩, 0⟩]
                [DrawList.VtxCurrentIdx, DrawList.VtxCurrentIdx + 1, DrawList.VtxCurrentIdx + 2,
                 DrawList.VtxCurrentIdx, DrawList.VtxCurrentIdx + 2, DrawList.VtxCurrentIdx + 3],
              ImDrawItem.Callback ImDrawCallback.ResetState 0] ∧
      decodeUserCallbackData pf (encodeUserCallbackData pf itemID) = itemID := by
  obtain ⟨ColormapTexID, t, Heatmaps, U, _, _, _, _, hU, hR⟩ :=
    RenderHeatmap_some pf itemID values data_type rows cols scale_min scale_max scale_x scale_y
      coords_min coords_max bounds_min bounds_max reverse_y cmap DrawList Context gl hc hlt
  refine ⟨_, _, _, hR, ?_, decode_encode pf hp itemID h1 h2⟩
  have hC := uploadByType_Context pf t.HeatmapTexID values data_type rows cols
    { Context with Heatmaps := Heatmaps }
    (Context.Heatmaps.GetOrAddByKey (toImGuiID itemID) HeatmapData.new gl).2
  rw [appendDrawCommands_Items, hU, hC.2.2.1, hC.2.2.2.1]

/-- C7 at the first `RenderHeatmap` of a session (item 1, the 2×2 `int32` grid, colormap 0,
an empty draw list): both programs are uncompiled, so four commands are appended. -/
theorem RenderHeatmap_draw_list_witness :
    ∃ Context1 gl1 DrawList1,
      RenderHeatmap examplePlatform 1 exampleGrid ImGuiDataType.S32 2 2 0 30 0 0
          ⟨0, 0⟩ ⟨100, 50⟩ ⟨0, 0⟩ ⟨1, 1⟩ false 0 {} exampleSession.1 exampleSession.2
        = some (Context1, gl1, DrawList1) ∧
      DrawList1.Items
        = [] ++ [ImDrawItem.Callback ImDrawCallback.CreateHeatmapShader 0]
          ++ [ImDrawItem.Callback ImDrawCallback.RenderCallback
                (encodeUserCallbackData examplePlatform 1),
              ImDrawItem.Prim
                [⟨⟨0, 0⟩, ⟨0, 0⟩, 0⟩, ⟨⟨100, 0⟩, ⟨1, 0⟩, 0⟩,
                 ⟨⟨100, 50⟩, ⟨1, 1⟩, 0⟩, ⟨⟨0, 50⟩, ⟨0, 1⟩, 0⟩]
                [0, 1, 2, 0, 2, 3],
              ImDrawItem.Callback ImDrawCallback.ResetState 0] ∧
      decodeUserCallbackData examplePlatform (encodeUserCallbackData examplePlatform 1) = 1 :=
  RenderHeatmap_draw_list examplePlatform 1 exampleGrid ImGuiDataType.S32 2 2 0 30 0 0
    ⟨0, 0⟩ ⟨100, 50⟩ ⟨0, 0⟩ ⟨1, 1⟩ false 0 {} exampleSession.1 exampleSession.2
    (by decide) (by decide) (by decide) (by decide) (by decide)

/-- C5: the entry's shader is the float variant exactly for `Float` and `Double`, the
integer variant for the eight integer types; and a `Double` grid is uploaded from the
`float` scratch buffer with the float texel format `GL_R32F`/`GL_RED`/`GL_FLOAT`, that
upload being the only `glTexImage2D` of the call. -/
theorem RenderHeatmap_shader_and_upload (hc : 0 ≤ cmap)
    (hlt : cmap < Context.ColormapIDs.length) :
    ∃ Context1 gl1 DrawList1 data,
      RenderHeatmap pf itemID values data_type rows cols scale_min scale_max scale_x scale_y
          coords_min coords_max bounds_min bounds_max reverse_y cmap DrawList Context gl
        = some (Context1, gl1, DrawList1) ∧
      Context1.Heatmaps.GetByKey (toImGuiID itemID) = some data ∧
      (data.ShaderProgram = some ShaderRef.ShaderFloat ↔
        data_type = ImGuiDataType.Float ∨ data_type = ImGuiDataType.Double) ∧
      (data_type ∈ [ImGuiDataType.S8, ImGuiDataType.U8, ImGuiDataType.S16, ImGuiDataType.U16,
          ImGuiDataType.S32, ImGuiDataType.U32, ImGuiDataType.S64, ImGuiDataType.U64] →
        data.ShaderProgram = some ShaderRef.ShaderInt) ∧
      (data_type = ImGuiDataType.Double →
        Context1.TempFloat
          = (List.range (wrapS 32 (rows * cols)).toNat).map
              (fun i => pf.toFloat (values.asDouble i)) ∧
        ∃ pre, gl1.Calls = gl.Calls ++ pre
            ++ [GLCall.TexImage2D data.HeatmapTexID GLenum.GL_R32F cols rows GLenum.GL_RED
                  GLenum.GL_FLOAT (Pixels.floats Context1.TempFloat)] ∧
          (pre = [] ∨ pre = constructorCalls (freshName gl.TextureNames))) := by
  obtain ⟨ColormapTexID, t, Heatmaps, U, _, _, _, hdata, hU, hR⟩ :=
    RenderHeatmap_some pf itemID values data_type rows cols scale_min scale_max scale_x scale_y
      coords_min coords_max bounds_min bounds_max reverse_y cmap DrawList Context gl hc hlt
  have hC := uploadByType_Context pf t.HeatmapTexID values data_type rows cols
    { Context with Heatmaps := Heatmaps }
    (Context.Heatmaps.GetOrAddByKey (toImGuiID itemID) HeatmapData.new gl).2
  refine ⟨_, _, _, assignEntry itemID ColormapTexID data_type scale_min scale_max scale_x
    scale_y bounds_min bounds_max t, hR, ?_, ?_, ?_, ?_⟩
  · rw [hU, hC.1]
    exact hdata
  · by_cases h : data_type = ImGuiDataType.Float ∨ data_type = ImGuiDataType.Double
    · simp [assignEntry, h]
    · simp [assignEntry, h]
  · intro hmem
    have h : ¬ (data_type = ImGuiDataType.Float ∨ data_type = ImGuiDataType.Double) := by
      intro h
      rcases h with h | h <;> (subst h; simp at hmem)
    simp [assignEntry, h]
  · intro hD
    subst hD
    obtain ⟨pre, hpre, hor⟩ := GetOrAddByKey_Calls Context.Heatmaps (toImGuiID itemID) gl
    subst hU
    refine ⟨?_, pre, ?_, hor⟩
    · simp only [uploadByType, SetHeatmapData_double, fillLoop_resize]
    · simp only [uploadByType, SetHeatmapData_double, SetTextureData_Calls, hpre]
      rfl

/-- C5 at a `Double` grid in the concrete session. -/
theorem RenderHeatmap_shader_and_upload_witness :
    ∃ Context1 gl1 DrawList1 data,
      RenderHeatmap examplePlatform 1 exampleGrid ImGuiDataType.Double 2 2 0 30 0 0
          ⟨0, 0⟩ ⟨100, 50⟩ ⟨0, 0⟩ ⟨1, 1⟩ false 0 {} exampleSession.1 exampleSession.2
        = some (Context1, gl1, DrawList1) ∧
      Context1.Heatmaps.GetByKey (toImGuiID 1) = some data ∧
      (data.ShaderProgram = some ShaderRef.ShaderFloat ↔
        ImGuiDataType.Double = ImGuiDataType.Float ∨
          ImGuiDataType.Double = ImGuiDataType.Double) ∧
      (ImGuiDataType.Double ∈ [ImGuiDataType.S8, ImGuiDataType.U8, ImGuiDataType.S16,
          ImGuiDataType.U16, ImGuiDataType.S32, ImGuiDataType.U32, ImGuiDataType.S64,
          ImGuiDataType.U64] →
        data.ShaderProgram = some ShaderRef.ShaderInt) ∧
      (ImGuiDataType.Double = ImGuiDataType.Double →
        Context1.TempFloat
          = (List.range (wrapS 32 (2 * 2)).toNat).map
              (fun i => examplePlatform.toFloat (exampleGrid.asDouble i)) ∧
        ∃ pre, gl1.Calls = exampleSession.2.Calls ++ pre
            ++ [GLCall.TexImage2D data.HeatmapTexID GLenum.GL_R32F 2 2 GLenum.GL_RED
                  GLenum.GL_FLOAT (Pixels.floats Context1.TempFloat)] ∧
          (pre = [] ∨ pre = constructorCalls (freshName exampleSession.2.TextureNames))) :=
  RenderHeatmap_shader_and_upload examplePlatform 1 exampleGrid ImGuiDataType.Double 2 2 0 30 0 0
    ⟨0, 0⟩ ⟨100, 50⟩ ⟨0, 0⟩ ⟨1, 1⟩ false 0 {} exampleSession.1 exampleSession.2
    (by decide) (by decide)

theorem assignEntry_idem (ColormapTexID : GLuint) (t : HeatmapData) :
    assignEntry itemID ColormapTexID data_type scale_min scale_max scale_x scale_y bounds_min
        bounds_max
      (assignEntry itemID ColormapTexID data_type scale_min scale_max scale_x scale_y bounds_min
        bounds_max t)
    = assignEntry itemID ColormapTexID data_type scale_min scale_max scale_x scale_y bounds_min
        bounds_max t := rfl

/-- C3: a second `RenderHeatmap` with the same key and the same arguments leaves the pool
as the first call left it (same number of entries, same entry under the key, with the same
stored parameters and the same `HeatmapTexID`), and generates no texture. -/
theorem RenderHeatmap_idempotent (DrawList2 : ImDrawList) (hc : 0 ≤ cmap)
    (hlt : cmap < Context.ColormapIDs.length) :
    ∃ Context1 gl1 DrawList1 Context2 gl2 DrawList3 data issued,
      RenderHeatmap pf itemID values data_type rows cols scale_min scale_max scale_x scale_y
          coords_min coords_max bounds_min bounds_max reverse_y cmap DrawList Context gl
        = some (Context1, gl1, DrawList1) ∧
      RenderHeatmap pf itemID values data_type rows cols scale_min scale_max scale_x scale_y
          coords_min coords_max bounds_min bounds_max reverse_y cmap DrawList2 Context1 gl1
        = some (Context2, gl2, DrawList3) ∧
      Context2.Heatmaps.GetBufSize = Context1.Heatmaps.GetBufSize ∧
      Context1.Heatmaps.GetByKey (toImGuiID itemID) = some data ∧
      Context2.Heatmaps.GetByKey (toImGuiID itemID) = some data ∧
      Context2.Heatmaps = Context1.Heatmaps ∧
      gl2.TextureNames = gl1.TextureNames ∧
      gl2.Calls = gl1.Calls ++ issued ∧ ∀ n, GLCall.GenTextures n ∉ issued := by
  obtain ⟨cm, t, Heatmaps, U, hget, _, hH, hdata, hU, hR⟩ :=
    RenderHeatmap_some pf itemID values data_type rows cols scale_min scale_max scale_x scale_y
      coords_min coords_max bounds_min bounds_max reverse_y cmap DrawList Context gl hc hlt
  have hC := uploadByType_Context pf t.HeatmapTexID values data_type rows cols
    { Context with Heatmaps := Heatmaps }
    (Context.Heatmaps.GetOrAddByKey (toImGuiID itemID) HeatmapData.new gl).2
  rw [← hU] at hC
  have hH1 : U.1.Heatmaps = Heatmaps := hC.1
  have hcm1 : U.1.ColormapIDs = Context.ColormapIDs := hC.2.1
  have hkey1 : U.1.Heatmaps.GetByKey (toImGuiID itemID)
      = some (assignEntry itemID cm data_type scale_min scale_max scale_x scale_y bounds_min
          bounds_max t) := by rw [hH1]; exact hdata
  obtain ⟨cm2, t2, Heatmaps2, U2, hget2, ht2, hH2, hdata2, hU2, hR2⟩ :=
    RenderHeatmap_some pf itemID values data_type rows cols scale_min scale_max scale_x scale_y
      coords_min coords_max bounds_min bounds_max reverse_y cmap DrawList2 U.1 U.2 hc
      (by rw [hcm1]; exact hlt)
  have hcm : cm2 = cm := by
    rw [hcm1, hget] at hget2
    exact (Option.some.inj hget2).symm
  subst hcm
  have hgo : U.1.Heatmaps.GetOrAddByKey (toImGuiID itemID) HeatmapData.new U.2
      = (U.1.Heatmaps, U.2) := GetOrAddByKey_of_some _ _ _ _ _ hkey1
  rw [hgo] at hH2 hU2 ht2
  have hEq : Heatmaps2 = U.1.Heatmaps := by
    rw [hH2, hH1, hH]
    simp only [ImPool.modify]
    rw [modifyKey_idem _ _ (assignEntry_idem itemID data_type scale_min scale_max scale_x scale_y
      bounds_min bounds_max cm2)]
  have hC2 := uploadByType_Context pf t2.HeatmapTexID values data_type rows cols
    { U.1 with Heatmaps := Heatmaps2 } U.2
  rw [← hU2] at hC2
  have hT2 := uploadByType_TextureNames pf t2.HeatmapTexID values data_type rows cols
    { U.1 with Heatmaps := Heatmaps2 } U.2
  rw [← hU2] at hT2
  have hCalls := uploadByType_Calls pf t2.HeatmapTexID values data_type rows cols
    { U.1 with Heatmaps := Heatmaps2 } U.2
  rw [← hU2] at hCalls
  have hpool : U2.1.Heatmaps = U.1.Heatmaps := by rw [hC2.1]; exact hEq
  have hissued : ∃ issued, U2.2.Calls = U.2.Calls ++ issued ∧
      ∀ n, GLCall.GenTextures n ∉ issued := by
    rcases hCalls with h | ⟨a, b, c, d, h⟩
    · exact ⟨[], by simpa using h, by simp⟩
    · exact ⟨_, h, by simp⟩
  obtain ⟨issued, hi1, hi2⟩ := hissued
  refine ⟨_, _, _, _, _, _, _, issued, hR, hR2, ?_, hkey1, ?_, hpool, hT2, hi1, hi2⟩
  · simp only [ImPool.GetBufSize, hpool]
  · rw [hpool]; exact hkey1

/-- C3 in the concrete session, item 1 rendered twice with the 2×2 `int32` grid. -/
theorem RenderHeatmap_idempotent_witness :
    ∃ Context1 gl1 DrawList1 Context2 gl2 DrawList3 data issued,
      RenderHeatmap examplePlatform 1 exampleGrid ImGuiDataType.S32 2 2 0 30 0 0
          ⟨0, 0⟩ ⟨100, 50⟩ ⟨0, 0⟩ ⟨1, 1⟩ false 0 {} exampleSession.1 exampleSession.2
        = some (Context1, gl1, DrawList1) ∧
      RenderHeatmap examplePlatform 1 exampleGrid ImGuiDataType.S32 2 2 0 30 0 0
          ⟨0, 0⟩ ⟨100, 50⟩ ⟨0, 0⟩ ⟨1, 1⟩ false 0 {} Context1 gl1
        = some (Context2, gl2, DrawList3) ∧
      Context2.Heatmaps.GetBufSize = Context1.Heatmaps.GetBufSize ∧
      Context1.Heatmaps.GetByKey (toImGuiID 1) = some data ∧
      Context2.Heatmaps.GetByKey (toImGuiID 1) = some data ∧
      Context2.Heatmaps = Context1.Heatmaps ∧
      gl2.TextureNames = gl1.TextureNames ∧
      gl2.Calls = gl1.Calls ++ issued ∧ ∀ n, GLCall.GenTextures n ∉ issued :=
  RenderHeatmap_idempotent examplePlatform 1 exampleGrid ImGuiDataType.S32 2 2 0 30 0 0
    ⟨0, 0⟩ ⟨100, 50⟩ ⟨0, 0⟩ ⟨1, 1⟩ false 0 {} exampleSession.1 exampleSession.2 {}
    (by decide) (by decide)

end Render

/-! ### Shader compilation -/

/-- C6 (as amended): when the vertex-shader compile or the fragment-shader compile fails,
`CompileShader` returns with the `HeatmapShader` untouched, so an `ID` of 0 is still 0; and
a `RenderHeatmap` made while that shader is one of the context's two programs schedules
the ensure-shader callback again. -/
theorem CompileShader_compile_failure_keeps_ID (out : CompileOutcome)
    (ShaderProgram : HeatmapShader) (VertexShaderCode FragmentShaderCode : ShaderSourceText)
    (gl : GLState) (h0 : ShaderProgram.ID = 0)
    (hfail : out.vertexCompiled = false ∨ out.fragmentCompiled = false) :
    (CompileShader out ShaderProgram VertexShaderCode FragmentShaderCode gl).1 = ShaderProgram ∧
    (CompileShader out ShaderProgram VertexShaderCode FragmentShaderCode gl).1.ID = 0 ∧
    ∀ (pf : Platform) (itemID : Int) (values : HostPtr) (data_type : ImGuiDataType)
      (rows cols : Int) (scale_min scale_max : ℚ) (scale_x scale_y : Int)
      (coords_min coords_max : ImVec2) (bounds_min bounds_max : ImPlotPoint) (reverse_y : Bool)
      (cmap : Int) (DrawList : ImDrawList) (Context : ContextData) (gl1 : GLState),
      0 ≤ cmap → cmap < Context.ColormapIDs.length →
      (Context.ShaderInt
          = (CompileShader out ShaderProgram VertexShaderCode FragmentShaderCode gl).1 ∨
        Context.ShaderFloat
          = (CompileShader out ShaderProgram VertexShaderCode FragmentShaderCode gl).1) →
      ∃ Context2 gl2 DrawList2,
        RenderHeatmap pf itemID values data_type rows cols scale_min scale_max scale_x scale_y
            coords_min coords_max bounds_min bounds_max reverse_y cmap DrawList Context gl1
          = some (Context2, gl2, DrawList2) ∧
        ImDrawItem.Callback ImDrawCallback.CreateHeatmapShader 0 ∈ DrawList2.Items := by
  have key : (CompileShader out ShaderProgram VertexShaderCode FragmentShaderCode gl).1
      = ShaderProgram := by
    unfold CompileShader
    by_cases hv : out.vertexCompiled = false
    · simp [hv]
    · have hf : out.fragmentCompiled = false := hfail.resolve_left hv
      simp [hv, hf]
  refine ⟨key, by rw [key]; exact h0, ?_⟩
  intro pf itemID values data_type rows cols scale_min scale_max scale_x scale_y coords_min
    coords_max bounds_min bounds_max reverse_y cmap DrawList Context gl1 hc hlt hsh
  rw [key] at hsh
  obtain ⟨ColormapTexID, t, Heatmaps, U, _, _, _, _, hU, hR⟩ :=
    RenderHeatmap_some pf itemID values data_type rows cols scale_min scale_max scale_x scale_y
      coords_min coords_max bounds_min bounds_max reverse_y cmap DrawList Context gl1 hc hlt
  refine ⟨_, _, _, hR, ?_⟩
  have hC := uploadByType_Context pf t.HeatmapTexID values data_type rows cols
    { Context with Heatmaps := Heatmaps }
    (Context.Heatmaps.GetOrAddByKey (toImGuiID itemID) HeatmapData.new gl1).2
  have hzero : U.1.ShaderInt.ID = 0 ∨ U.1.ShaderFloat.ID = 0 := by
    rw [hU, hC.2.2.1, hC.2.2.2.1]
    rcases hsh with h | h
    · exact Or.inl (by show Context.ShaderInt.ID = 0; rw [h]; exact h0)
    · exact Or.inr (by show Context.ShaderFloat.ID = 0; rw [h]; exact h0)
  rw [appendDrawCommands_Items]
  simp [hzero]

/-- C6 at a failing vertex-shader compile in a fresh OpenGL context, followed by a
`RenderHeatmap` in the concrete session. -/
theorem CompileShader_compile_failure_keeps_ID_witness :
    (CompileShader ⟨false, true, true⟩ {} (ShaderSourceText.vertex 0 1)
        (ShaderSourceText.fragment 'i') GLState.initial).1 = {} ∧
    (CompileShader ⟨false, true, true⟩ {} (ShaderSourceText.vertex 0 1)
        (ShaderSourceText.fragment 'i') GLState.initial).1.ID = 0 ∧
    ∃ Context2 gl2 DrawList2,
      RenderHeatmap examplePlatform 1 exampleGrid ImGuiDataType.S32 2 2 0 30 0 0
          ⟨0, 0⟩ ⟨100, 50⟩ ⟨0, 0⟩ ⟨1, 1⟩ false 0 {} exampleSession.1 exampleSession.2
        = some (Context2, gl2, DrawList2) ∧
      ImDrawItem.Callback ImDrawCallback.CreateHeatmapShader 0 ∈ DrawList2.Items :=
  ⟨(CompileShader_compile_failure_keeps_ID ⟨false, true, true⟩ {} (ShaderSourceText.vertex 0 1)
      (ShaderSourceText.fragment 'i') GLState.initial rfl (Or.inl rfl)).1,
    (CompileShader_compile_failure_keeps_ID ⟨false, true, true⟩ {} (ShaderSourceText.vertex 0 1)
      (ShaderSourceText.fragment 'i') GLState.initial rfl (Or.inl rfl)).2.1,
    (CompileShader_compile_failure_keeps_ID ⟨false, true, true⟩ {} (ShaderSourceText.vertex 0 1)
      (ShaderSourceText.fragment 'i') GLState.initial rfl (Or.inl rfl)).2.2
      examplePlatform 1 exampleGrid ImGuiDataType.S32 2 2 0 30 0 0
      ⟨0, 0⟩ ⟨100, 50⟩ ⟨0, 0⟩ ⟨1, 1⟩ false 0 {} exampleSession.1 exampleSession.2
      (by decide) (by decide) (Or.inl rfl)⟩

/-- What `CompileShader` does when both compiles succeed: `ID` is the name returned by
`glCreateProgram`, whatever the link status. -/
theorem CompileShader_ID_of_compiled (out : CompileOutcome) (ShaderProgram : HeatmapShader)
    (VertexShaderCode FragmentShaderCode : ShaderSourceText) (gl : GLState)
    (hv : out.vertexCompiled = true) (hf : out.fragmentCompiled = true) :
    (CompileShader out ShaderProgram VertexShaderCode FragmentShaderCode gl).1.ID ≠ 0 := by
  unfold CompileShader
  simp only [hv, hf, glCreateProgram]
  exact freshName_pos _

/-- C6 as stated fails for a link failure: with both compiles succeeding and the link
failing, a `HeatmapShader` whose `ID` was 0 returns with a non-zero `ID`. -/
theorem CompileShader_link_failure_sets_ID :
    ({} : HeatmapShader).ID = 0 ∧
    (⟨true, true, false⟩ : CompileOutcome).linked = false ∧
    (CompileShader ⟨true, true, false⟩ {} (ShaderSourceText.vertex 0 1)
        (ShaderSourceText.fragment 'i') GLState.initial).1.ID ≠ 0 :=
  ⟨rfl, rfl, CompileShader_ID_of_compiled ⟨true, true, false⟩ {} (ShaderSourceText.vertex 0 1)
    (ShaderSourceText.fragment 'i') GLState.initial rfl rfl⟩


/-! ### The draw-list callbacks -/

theorem glUniform_fields (location : Int) (v : UniformValue) (gl : GLState) :
    (glUniform location v gl).CurrentProgram = gl.CurrentProgram ∧
    (glUniform location v gl).ActiveTexture = gl.ActiveTexture ∧
    (glUniform location v gl).TextureBinding2D = gl.TextureBinding2D ∧
    (glUniform location v gl).TextureNames = gl.TextureNames ∧
    (glUniform location v gl).Calls = gl.Calls := by
  unfold glUniform
  split <;> exact ⟨rfl, rfl, rfl, rfl, rfl⟩

theorem ResetState_fields (Context : ContextData) (gl : GLState) :
    (ResetState Context gl).CurrentProgram = Context.ImGuiShader ∧
    (ResetState Context gl).ActiveTexture = 0 ∧
    (ResetState Context gl).TextureBinding2D 0 = 0 ∧
    (ResetState Context gl).TextureNames = gl.TextureNames ∧
    (ResetState Context gl).Calls = gl.Calls := by
  simp [ResetState, glUseProgram, glBindTexture, glActiveTexture]

/-- `CreateHeatmapShader` records the program that is current when it runs, and leaves no
program current. -/
theorem CreateHeatmapShader_ImGuiShader (outFloat outInt : CompileOutcome)
    (Context : ContextData) (gl : GLState) :
    (CreateHeatmapShader outFloat outInt Context gl).1.ImGuiShader = gl.CurrentProgram ∧
    (CreateHeatmapShader outFloat outInt Context gl).2.CurrentProgram = 0 :=
  ⟨rfl, rfl⟩

/-- `RenderCallback` returns when its payload names a pool entry with a shader assigned. -/
theorem RenderCallback_some (pf : Platform) (UserCallbackData : Nat)
    (Context : ContextData) (gl : GLState) (data : HeatmapData) (ref : ShaderRef)
    (hd : Context.Heatmaps.GetByKey (toImGuiID (decodeUserCallbackData pf UserCallbackData))
      = some data)
    (hs : data.ShaderProgram = some ref) :
    ∃ gl1, RenderCallback pf UserCallbackData Context gl = some gl1 := by
  simp only [RenderCallback, hd, hs]
  exact ⟨_, rfl⟩

/-- C8 (as amended): for every OpenGL state and every pool entry with a shader assigned,
`RenderCallback` for that entry returns, and `ResetState` after it leaves the program
recorded in `Context.ImGuiShader` current, texture unit 0 active and no 2-D texture bound
on unit 0; so the program `P` that was current before is current again when
`Context.ImGuiShader` is `P`. -/
theorem RenderCallback_ResetState (pf : Platform) (UserCallbackData : Nat)
    (Context : ContextData) (gl : GLState) (data : HeatmapData) (ref : ShaderRef)
    (hd : Context.Heatmaps.GetByKey (toImGuiID (decodeUserCallbackData pf UserCallbackData))
      = some data)
    (hs : data.ShaderProgram = some ref) :
    ∃ gl1, RenderCallback pf UserCallbackData Context gl = some gl1 ∧
      (ResetState Context gl1).CurrentProgram = Context.ImGuiShader ∧
      (ResetState Context gl1).ActiveTexture = 0 ∧
      (ResetState Context gl1).TextureBinding2D 0 = 0 ∧
      (Context.ImGuiShader = gl.CurrentProgram →
        (ResetState Context gl1).CurrentProgram = gl.CurrentProgram) := by
  obtain ⟨gl1, h1⟩ := RenderCallback_some pf UserCallbackData Context gl data ref hd hs
  have hR := ResetState_fields Context gl1
  exact ⟨gl1, h1, hR.1, hR.2.1, hR.2.2.1, fun h => by rw [hR.1, h]⟩

/-- C8 (as amended) at the concrete later frame. -/
theorem RenderCallback_ResetState_witness :
    ∃ gl1, RenderCallback examplePlatform 1 exampleLaterContext exampleLaterGL = some gl1 ∧
      (ResetState exampleLaterContext gl1).CurrentProgram = exampleLaterContext.ImGuiShader ∧
      (ResetState exampleLaterContext gl1).ActiveTexture = 0 ∧
      (ResetState exampleLaterContext gl1).TextureBinding2D 0 = 0 ∧
      (exampleLaterContext.ImGuiShader = exampleLaterGL.CurrentProgram →
        (ResetState exampleLaterContext gl1).CurrentProgram = exampleLaterGL.CurrentProgram) :=
  RenderCallback_ResetState examplePlatform 1 exampleLaterContext exampleLaterGL exampleEntry
    ShaderRef.ShaderInt (by decide) rfl

/-- C8 as stated fails when the host's current program is not the one recorded at shader
creation: with program 5 current and `Context.ImGuiShader = 3`, `RenderCallback` followed
by `ResetState` leaves program 3 current, not program 5. -/
theorem ResetState_restores_recorded_program :
    exampleLaterGL.CurrentProgram = 5 ∧
    (RenderCallback examplePlatform 1 exampleLaterContext exampleLaterGL).map
        (fun gl1 => (ResetState exampleLaterContext gl1).CurrentProgram) = some 3 ∧
    (3 : GLuint) ≠ 5 := by
  refine ⟨rfl, ?_, by decide⟩
  obtain ⟨gl1, h1⟩ := RenderCallback_some examplePlatform 1 exampleLaterContext exampleLaterGL
    exampleEntry ShaderRef.ShaderInt (by decide) rfl
  rw [h1]
  exact congrArg some (ResetState_fields exampleLaterContext gl1).1

/-! ### Texture ownership along a session -/

theorem foldl_glDeleteTextures_Calls (l : List (ImGuiID × HeatmapData)) :
    ∀ gl : GLState,
      (l.foldl (fun gl e => glDeleteTextures e.2.HeatmapTexID gl) gl).Calls
        = gl.Calls ++ l.map (fun e => GLCall.DeleteTextures e.2.HeatmapTexID) := by
  induction l with
  | nil => intro gl; simp
  | cons e rest ih =>
    intro gl
    simp only [List.foldl_cons, List.map_cons]
    rw [ih]
    simp [glDeleteTextures]

theorem foldl_glDeleteTextures_TextureNames (l : List (ImGuiID × HeatmapData)) :
    ∀ (gl : GLState) (n : GLuint),
      n ∈ (l.foldl (fun gl e => glDeleteTextures e.2.HeatmapTexID gl) gl).TextureNames
        ↔ n ∈ gl.TextureNames ∧ n ∉ l.map (fun e => e.2.HeatmapTexID) := by
  induction l with
  | nil => intro gl n; simp
  | cons e rest ih =>
    intro gl n
    simp only [List.foldl_cons, List.map_cons, List.mem_cons, not_or]
    rw [ih]
    simp only [glDeleteTextures, List.mem_filter, decide_eq_true_eq]
    tauto

theorem CompileShader_TextureNames (out : CompileOutcome) (ShaderProgram : HeatmapShader)
    (VertexShaderCode FragmentShaderCode : ShaderSourceText) (gl : GLState) :
    (CompileShader out ShaderProgram VertexShaderCode FragmentShaderCode gl).2.TextureNames
      = gl.TextureNames := by
  unfold CompileShader
  by_cases hv : out.vertexCompiled = false
  · simp [hv, glDeleteShader, glRecord, glCreateShader]
  · by_cases hf : out.fragmentCompiled = false
    · simp [hv, hf, glDeleteShader, glRecord, glCreateShader]
    · have hv1 : out.vertexCompiled = true := by simpa using hv
      have hf1 : out.fragmentCompiled = true := by simpa using hf
      simp [hv1, hf1, (glUniform_fields _ _ _).2.2.2.1, glUseProgram, glDeleteShader, glRecord,
        glCreateShader, glCreateProgram]

theorem CreateHeatmapShader_owned (outFloat outInt : CompileOutcome) (Context : ContextData)
    (gl : GLState) :
    (CreateHeatmapShader outFloat outInt Context gl).1.Heatmaps = Context.Heatmaps ∧
    (CreateHeatmapShader outFloat outInt Context gl).1.ColormapIDs = Context.ColormapIDs ∧
    (CreateHeatmapShader outFloat outInt Context gl).2.TextureNames = gl.TextureNames := by
  refine ⟨rfl, rfl, ?_⟩
  simp only [CreateHeatmapShader, glUseProgram, CompileShader_TextureNames]

theorem RenderCallback_TextureNames (pf : Platform) (UserCallbackData : Nat)
    (Context : ContextData) (gl gl1 : GLState)
    (h : RenderCallback pf UserCallbackData Context gl = some gl1) :
    gl1.TextureNames = gl.TextureNames := by
  unfold RenderCallback at h
  dsimp only at h
  split at h
  · cases h
  · split at h
    · cases h
    · have h1 := Option.some.inj h
      rw [← h1]
      simp only [(glUniform_fields _ _ _).2.2.2.1]
      rfl

theorem AddColormap_owned (keys : Nat) (count : Int) (qual : Bool) (C : ContextData)
    (gl : GLState) :
    (AddColormap keys count qual C gl).1.Heatmaps = C.Heatmaps ∧
    (AddColormap keys count qual C gl).1.ColormapIDs
      = C.ColormapIDs ++ [freshName gl.TextureNames] ∧
    (AddColormap keys count qual C gl).2.TextureNames
      = freshName gl.TextureNames :: gl.TextureNames :=
  ⟨rfl, rfl, rfl⟩

theorem BustItemCache_owned (C : ContextData) (gl : GLState) :
    (BustItemCache C gl).1.Heatmaps.Buf = [] ∧
    (BustItemCache C gl).1.ColormapIDs = C.ColormapIDs ∧
    (BustItemCache C gl).1.ShaderInt = C.ShaderInt ∧
    (BustItemCache C gl).1.ShaderFloat = C.ShaderFloat ∧
    (BustItemCache C gl).2.Calls
      = gl.Calls ++ C.Heatmaps.Buf.map (fun e => GLCall.DeleteTextures e.2.HeatmapTexID) ∧
    ∀ n, n ∈ (BustItemCache C gl).2.TextureNames
      ↔ n ∈ gl.TextureNames ∧ n ∉ heatmapTextures C :=
  ⟨rfl, rfl, rfl, rfl, foldl_glDeleteTextures_Calls _ _,
    fun n => foldl_glDeleteTextures_TextureNames _ _ n⟩

theorem TexturesOwned_BustItemCache (C : ContextData) (gl : GLState)
    (h : TexturesOwned (C, gl)) : TexturesOwned (BustItemCache C gl) := by
  obtain ⟨hnd, hmem⟩ := h
  have hB := BustItemCache_owned C gl
  unfold TexturesOwned heatmapTextures at *
  simp only [hB.1, hB.2.1, List.map_nil, List.nil_append]
  refine ⟨(List.nodup_append.mp hnd).2.1, ?_⟩
  intro n hn
  rw [hB.2.2.2.2.2]
  refine ⟨hmem n (List.mem_append_right _ hn), ?_⟩
  intro hn'
  exact (List.nodup_append.mp hnd).2.2 hn' hn

theorem TexturesOwned_RenderHeatmap (pf : Platform) (itemID : Int) (values : HostPtr)
    (data_type : ImGuiDataType) (rows cols : Int) (scale_min scale_max : ℚ)
    (scale_x scale_y : Int) (coords_min coords_max : ImVec2)
    (bounds_min bounds_max : ImPlotPoint) (reverse_y : Bool) (cmap : Int)
    (DrawList : ImDrawList) (C : ContextData) (gl : GLState) (C1 : ContextData) (gl1 : GLState)
    (DrawList1 : ImDrawList)
    (hr : RenderHeatmap pf itemID values data_type rows cols scale_min scale_max scale_x
        scale_y coords_min coords_max bounds_min bounds_max reverse_y cmap DrawList C gl
      = some (C1, gl1, DrawList1))
    (h : TexturesOwned (C, gl)) : TexturesOwned (C1, gl1) := by
  have hc : 0 ≤ cmap := by
    by_contra hneg
    have hlt : cmap < 0 := by omega
    simp [RenderHeatmap, hlt] at hr
  have hlt : cmap < C.ColormapIDs.length := by
    by_contra hge
    have hnone : C.ColormapIDs[cmap.toNat]? = none := by
      rw [List.getElem?_eq_none_iff]
      omega
    have hnot : ¬ cmap < 0 := by omega
    simp [RenderHeatmap, hnot, hnone] at hr
  obtain ⟨cm, t, Heatmaps, U, _, _, hH, _, hU, hR⟩ :=
    RenderHeatmap_some pf itemID values data_type rows cols scale_min scale_max scale_x scale_y
      coords_min coords_max bounds_min bounds_max reverse_y cmap DrawList C gl hc hlt
  rw [hR] at hr
  have hC := uploadByType_Context pf t.HeatmapTexID values data_type rows cols
    { C with Heatmaps := Heatmaps }
    (C.Heatmaps.GetOrAddByKey (toImGuiID itemID) HeatmapData.new gl).2
  have hT := uploadByType_TextureNames pf t.HeatmapTexID values data_type rows cols
    { C with Heatmaps := Heatmaps }
    (C.Heatmaps.GetOrAddByKey (toImGuiID itemID) HeatmapData.new gl).2
  rw [← hU] at hC hT
  have e1 : C1 = U.1 := by
    have := Option.some.inj hr
    exact (congrArg Prod.fst this).symm
  have e2 : gl1 = U.2 := by
    have := Option.some.inj hr
    exact (congrArg (fun x => x.2.1) this).symm
  have htex : heatmapTextures C1
      = (C.Heatmaps.GetOrAddByKey (toImGuiID itemID) HeatmapData.new gl).1.Buf.map
          (fun e => e.2.HeatmapTexID) := by
    have hH1 : U.1.Heatmaps = Heatmaps := hC.1
    unfold heatmapTextures
    rw [e1, hH1, hH]
    exact map_modifyKey (toImGuiID itemID)
      (assignEntry itemID cm data_type scale_min scale_max scale_x scale_y bounds_min bounds_max)
      (fun d : HeatmapData => d.HeatmapTexID) (fun _ => rfl) _
  have hcm : C1.ColormapIDs = C.ColormapIDs := by rw [e1]; exact hC.2.1
  obtain ⟨hnd, hmem⟩ := h
  unfold TexturesOwned
  simp only [htex, hcm, e2, hT]
  cases hk : C.Heatmaps.GetByKey (toImGuiID itemID) with
  | some t0 =>
    rw [GetOrAddByKey_of_some C.Heatmaps _ _ gl t0 hk]
    exact ⟨hnd, hmem⟩
  | none =>
    rw [GetOrAddByKey_of_none C.Heatmaps _ _ gl hk]
    have hnew := HeatmapData_new_spec gl
    simp only [hnew.1, hnew.2.1, List.map_append, List.map_cons, List.map_nil]
    have hfresh : freshName gl.TextureNames ∉ heatmapTextures C ++ C.ColormapIDs :=
      fun hin => freshName_not_mem _ (hmem _ hin)
    unfold heatmapTextures at hnd hmem hfresh
    refine ⟨?_, ?_⟩
    · rw [List.append_assoc, List.singleton_append]
      rw [List.nodup_append] at hnd ⊢
      refine ⟨hnd.1, ?_, ?_⟩
      · rw [List.nodup_cons]
        exact ⟨fun hin => hfresh (List.mem_append_right _ hin), hnd.2.1⟩
      · intro a ha hb
        rcases List.mem_cons.mp hb with hb | hb
        · subst hb
          exact hfresh (List.mem_append_left _ ha)
        · exact hnd.2.2 ha hb
    · intro n hn
      simp only [List.mem_append, List.mem_cons, List.mem_singleton, List.not_mem_nil,
        or_false] at hn
      rcases hn with (hn | hn) | hn
      · exact List.mem_cons_of_mem _ (hmem n (List.mem_append_left _ hn))
      · rw [hn]; exact List.mem_cons_self _ _
      · exact List.mem_cons_of_mem _ (hmem n (List.mem_append_right _ hn))

theorem TexturesOwned_AddColormap (keys : Nat) (count : Int) (qual : Bool) (C : ContextData)
    (gl : GLState) (h : TexturesOwned (C, gl)) :
    TexturesOwned (AddColormap keys count qual C gl) := by
  obtain ⟨hnd, hmem⟩ := h
  have hA := AddColormap_owned keys count qual C gl
  have hfresh : freshName gl.TextureNames ∉ heatmapTextures C ++ C.ColormapIDs :=
    fun hin => freshName_not_mem _ (hmem _ hin)
  unfold TexturesOwned heatmapTextures at *
  simp only [hA.1, hA.2.1, hA.2.2]
  refine ⟨?_, ?_⟩
  · rw [← List.append_assoc]
    rw [List.nodup_append]
    refine ⟨hnd, List.nodup_singleton _, ?_⟩
    intro a ha hb
    rw [List.mem_singleton] at hb
    subst hb
    exact hfresh ha
  · intro n hn
    rw [← List.append_assoc, List.mem_append, List.mem_singleton] at hn
    rcases hn with hn | hn
    · exact List.mem_cons_of_mem _ (hmem n hn)
    · rw [hn]; exact List.mem_cons_self _ _

/-- Along a session the textures owned by the backend stay pairwise distinct and in use. -/
theorem Reachable.texturesOwned {s : ContextData × GLState} (h : Reachable s) :
    TexturesOwned s := by
  induction h with
  | init gl => exact ⟨List.nodup_nil, fun n hn => by cases hn⟩
  | addColormap _ keys count qual ih => exact TexturesOwned_AddColormap keys count qual _ _ ih
  | renderHeatmap _ pf itemID values data_type rows cols scale_min scale_max scale_x scale_y
      coords_min coords_max bounds_min bounds_max reverse_y cmap DrawList C1 gl1 DrawList1 hr ih =>
    exact TexturesOwned_RenderHeatmap pf itemID values data_type rows cols scale_min scale_max
      scale_x scale_y coords_min coords_max bounds_min bounds_max reverse_y cmap DrawList _ _
      C1 gl1 DrawList1 hr ih
  | bustItemCache _ ih => exact TexturesOwned_BustItemCache _ _ ih
  | bustPlotCache _ ih => exact TexturesOwned_BustItemCache _ _ ih
  | @createHeatmapShader C gl _ outFloat outInt ih =>
    have hC := CreateHeatmapShader_owned outFloat outInt C gl
    unfold TexturesOwned heatmapTextures at *
    simp only [hC.1, hC.2.1, hC.2.2]
    exact ih
  | @renderCallback C gl _ pf UserCallbackData gl1 hr ih =>
    have hT := RenderCallback_TextureNames pf UserCallbackData C gl gl1 hr
    unfold TexturesOwned at *
    simp only [hT]
    exact ih
  | @resetState C gl _ ih =>
    unfold TexturesOwned at *
    simp only [(ResetState_fields C gl).2.2.2.1]
    exact ih

/-- C4: in every state of a session, `BustItemCache` (and its alias `BustPlotCache`)
leaves the pool with no entry; the calls it makes delete the `HeatmapTexID` of every entry
that was live exactly once (and that name is no longer in use), delete nothing else, no
colormap texture and no shader program; the colormap textures stay in use and the
context's programs and colormap registry are untouched. -/
theorem BustItemCache_clears (C : ContextData) (gl : GLState) (h : Reachable (C, gl)) :
    (BustItemCache C gl).1.Heatmaps.GetBufSize = 0 ∧
    (∀ key, (BustItemCache C gl).1.Heatmaps.GetByKey key = none) ∧
    BustPlotCache C gl = BustItemCache C gl ∧
    (BustItemCache C gl).1.ShaderInt = C.ShaderInt ∧
    (BustItemCache C gl).1.ShaderFloat = C.ShaderFloat ∧
    (BustItemCache C gl).1.ColormapIDs = C.ColormapIDs ∧
    ∃ issued, (BustItemCache C gl).2.Calls = gl.Calls ++ issued ∧
      (∀ e ∈ C.Heatmaps.Buf,
        issued.count (GLCall.DeleteTextures e.2.HeatmapTexID) = 1 ∧
        e.2.HeatmapTexID ∉ (BustItemCache C gl).2.TextureNames) ∧
      (∀ c ∈ issued, ∃ e ∈ C.Heatmaps.Buf, c = GLCall.DeleteTextures e.2.HeatmapTexID) ∧
      (∀ id ∈ C.ColormapIDs,
        GLCall.DeleteTextures id ∉ issued ∧ id ∈ (BustItemCache C gl).2.TextureNames) ∧
      (∀ p, GLCall.DeleteProgram p ∉ issued) := by
  obtain ⟨hnd, hmem⟩ := h.texturesOwned
  have hB := BustItemCache_owned C gl
  have hndH : (heatmapTextures C).Nodup := (List.nodup_append.mp hnd).1
  have hinj : Function.Injective GLCall.DeleteTextures := fun a b hab => by
    injection hab
  have hndI : (C.Heatmaps.Buf.map (fun e => GLCall.DeleteTextures e.2.HeatmapTexID)).Nodup := by
    have := hndH.map hinj
    unfold heatmapTextures at this
    rwa [List.map_map] at this
  refine ⟨by simp [ImPool.GetBufSize, hB.1], fun key => by simp [ImPool.GetByKey, hB.1, lookupKey],
    rfl, rfl, rfl, rfl, _, hB.2.2.2.2.1, ?_, ?_, ?_, ?_⟩
  · intro e he
    refine ⟨List.count_eq_one_of_mem hndI (List.mem_map_of_mem _ he), ?_⟩
    rw [hB.2.2.2.2.2]
    intro hcon
    exact hcon.2 (List.mem_map_of_mem (fun e => e.2.HeatmapTexID) he)
  · intro c hc
    obtain ⟨e, he, rfl⟩ := List.mem_map.mp hc
    exact ⟨e, he, rfl⟩
  · intro id hid
    refine ⟨?_, ?_⟩
    · intro hin
      obtain ⟨e, he, heq⟩ := List.mem_map.mp hin
      injection heq with heq
      have : id ∈ heatmapTextures C := by
        rw [← heq]
        exact List.mem_map_of_mem (fun e => e.2.HeatmapTexID) he
      exact (List.nodup_append.mp hnd).2.2 this hid
    · rw [hB.2.2.2.2.2]
      exact ⟨hmem id (List.mem_append_right _ hid),
        fun hin => (List.nodup_append.mp hnd).2.2 hin hid⟩
  · intro p hin
    obtain ⟨e, _, heq⟩ := List.mem_map.mp hin
    cases heq

/-- The concrete session reaches `exampleRendered`. -/
theorem exampleRendered_reachable : Reachable (exampleRendered.1, exampleRendered.2.1) :=
  Reachable.renderHeatmap
    (Reachable.addColormap (Reachable.init GLState.initial) 8192 2 false)
    examplePlatform 1 exampleGrid ImGuiDataType.S32 2 2 0 30 0 0
    ⟨0, 0⟩ ⟨100, 50⟩ ⟨0, 0⟩ ⟨1, 1⟩ false 0 {} exampleRendered.1 exampleRendered.2.1
    exampleRendered.2.2 rfl

/-- C4 in the concrete session: item 1 has been rendered once (one live entry, holding
texture 2; the colormap is texture 1), then the cache is busted. -/
theorem BustItemCache_clears_witness :
    Reachable (exampleRendered.1, exampleRendered.2.1) ∧
    exampleRendered.1.Heatmaps.Buf.map (fun e => (e.1, e.2.HeatmapTexID)) = [(1, 2)] ∧
    exampleRendered.1.ColormapIDs = [1] ∧
    (BustItemCache exampleRendered.1 exampleRendered.2.1).1.Heatmaps.GetBufSize = 0 ∧
    (∀ key, (BustItemCache exampleRendered.1 exampleRendered.2.1).1.Heatmaps.GetByKey key = none) ∧
    BustPlotCache exampleRendered.1 exampleRendered.2.1
      = BustItemCache exampleRendered.1 exampleRendered.2.1 ∧
    (BustItemCache exampleRendered.1 exampleRendered.2.1).1.ShaderInt = exampleRendered.1.ShaderInt ∧
    (BustItemCache exampleRendered.1 exampleRendered.2.1).1.ShaderFloat = exampleRendered.1.ShaderFloat ∧
    (BustItemCache exampleRendered.1 exampleRendered.2.1).1.ColormapIDs = exampleRendered.1.ColormapIDs ∧
    ∃ issued, (BustItemCache exampleRendered.1 exampleRendered.2.1).2.Calls = exampleRendered.2.1.Calls ++ issued ∧
      (∀ e ∈ exampleRendered.1.Heatmaps.Buf,
        issued.count (GLCall.DeleteTextures e.2.HeatmapTexID) = 1 ∧
        e.2.HeatmapTexID ∉ (BustItemCache exampleRendered.1 exampleRendered.2.1).2.TextureNames) ∧
      (∀ c ∈ issued, ∃ e ∈ exampleRendered.1.Heatmaps.Buf, c = GLCall.DeleteTextures e.2.HeatmapTexID) ∧
      (∀ id ∈ exampleRendered.1.ColormapIDs,
        GLCall.DeleteTextures id ∉ issued ∧ id ∈ (BustItemCache exampleRendered.1 exampleRendered.2.1).2.TextureNames) ∧
      (∀ p, GLCall.DeleteProgram p ∉ issued) :=
  ⟨exampleRendered_reachable, by decide, by decide,
    BustItemCache_clears exampleRendered.1 exampleRendered.2.1 exampleRendered_reachable⟩

/-! ### Order and range of the remapped coordinate -/

theorem log10_lt_log10 {a b : ℝ} (ha : 0 < a) (hab : a < b) : log10 a < log10 b := by
  have h10 : (0 : ℝ) < Real.log 10 := Real.log_pos (by norm_num)
  have hinv : 0 < invln10 := by
    unfold invln10
    norm_num
    exact h10
  unfold log10
  exact mul_lt_mul_of_pos_right (Real.log_lt_log ha hab) hinv

theorem mel_lt_mel {a b : ℝ} (ha : 0 < a) (hab : a < b) : mel a < mel b := by
  unfold mel
  have h : log10 (1 + a / 700) < log10 (1 + b / 700) :=
    log10_lt_log10 (by positivity) (by linarith [div_lt_div_of_pos_right hab (by norm_num : (0 : ℝ) < 700)])
  linarith

theorem erb_lt_erb {a b : ℝ} (ha : 0 < a) (hab : a < b) : erb a < erb b := by
  unfold erb
  have h : log10 (1 + 0.00437 * a) < log10 (1 + 0.00437 * b) :=
    log10_lt_log10 (by positivity) (by nlinarith)
  nlinarith

theorem rpow10_lt {y z : ℝ} (h : y < z) : (10 : ℝ) ^ y < (10 : ℝ) ^ z :=
  (Real.rpow_lt_rpow_left_iff (by norm_num : (1 : ℝ) < 10)).mpr h

theorem melInv_lt {y z : ℝ} (h : y < z) : melInv y < melInv z := by
  unfold melInv
  have := rpow10_lt (div_lt_div_of_pos_right h (by norm_num : (0 : ℝ) < 2595))
  linarith

theorem erbInv_lt {y z : ℝ} (h : y < z) : erbInv y < erbInv z := by
  unfold erbInv
  have := rpow10_lt (div_lt_div_of_pos_right h (by norm_num : (0 : ℝ) < 21.33228))
  exact div_lt_div_of_pos_right (by linarith) (by norm_num)

/-- The shape shared by the three logarithmic kinds: with `inv` strictly increasing,
`lo < hi`, `inv lo = min_rng` and `inv hi = max_rng`, the map
`x ↦ (inv (x * (hi - lo) + lo) - min_rng) / (max_rng - min_rng)` is strictly increasing and
sends `[0, 1]` into `[0, 1]`. -/
theorem remap_strictMono_range (inv : ℝ → ℝ) (hinv : ∀ y z, y < z → inv y < inv z)
    (lo hi min_rng max_rng : ℝ) (hlh : lo < hi) (hlt : min_rng < max_rng)
    (h0 : inv lo = min_rng) (h1 : inv hi = max_rng) :
    (∀ x y, x < y →
      (inv (x * (hi - lo) + lo) - min_rng) / (max_rng - min_rng)
        < (inv (y * (hi - lo) + lo) - min_rng) / (max_rng - min_rng)) ∧
    (∀ x, 0 ≤ x → x ≤ 1 →
      0 ≤ (inv (x * (hi - lo) + lo) - min_rng) / (max_rng - min_rng) ∧
      (inv (x * (hi - lo) + lo) - min_rng) / (max_rng - min_rng) ≤ 1) := by
  have hd : 0 < max_rng - min_rng := sub_pos.mpr hlt
  have hw : 0 < hi - lo := sub_pos.mpr hlh
  have hmono : ∀ y z, y ≤ z → inv y ≤ inv z := by
    intro y z hyz
    rcases eq_or_lt_of_le hyz with h | h
    · rw [h]
    · exact (hinv y z h).le
  refine ⟨?_, ?_⟩
  · intro x y hxy
    have harg : x * (hi - lo) + lo < y * (hi - lo) + lo := by nlinarith
    exact div_lt_div_of_pos_right (by linarith [hinv _ _ harg]) hd
  · intro x hx0 hx1
    have hlow : lo ≤ x * (hi - lo) + lo := by nlinarith
    have hhigh : x * (hi - lo) + lo ≤ hi := by nlinarith
    have hl := hmono _ _ hlow
    have hh := hmono _ _ hhigh
    rw [h0] at hl
    rw [h1] at hh
    refine ⟨div_nonneg (by linarith) hd.le, ?_⟩
    rw [div_le_one hd]
    linarith

/-- The value `convert_scale` returns for the Logarithmic, Mel and ERB kinds. -/
theorem convert_scale_log_mel_erb (x min_rng max_rng : ℝ) :
    convert_scale 1 x min_rng max_rng
      = some (((10 : ℝ) ^ (x * (log10 max_rng - log10 min_rng) + log10 min_rng) - min_rng)
          / (max_rng - min_rng)) ∧
    convert_scale 2 x min_rng max_rng
      = some ((melInv (x * (mel max_rng - mel min_rng) + mel min_rng) - min_rng)
          / (max_rng - min_rng)) ∧
    convert_scale 3 x min_rng max_rng
      = some ((erbInv (x * (erb max_rng - erb min_rng) + erb min_rng) - min_rng)
          / (max_rng - min_rng)) := by
  refine ⟨?_, ?_, ?_⟩ <;> simp [convert_scale]

/-- C11: for the Logarithmic, Mel and ERB kinds and bounds `0 < min_rng < max_rng`,
`convert_scale` returns a value at every `x`, and that value, as a function `f` of `x`, is
strictly increasing on `[0, 1]` and lies in `[0, 1]` there. -/
theorem convert_scale_strictMono_range (k : Int) (hk : k = 1 ∨ k = 2 ∨ k = 3)
    (min_rng max_rng : ℝ) (h0 : 0 < min_rng) (hlt : min_rng < max_rng) :
    ∃ f : ℝ → ℝ,
      (∀ x, convert_scale k x min_rng max_rng = some (f x)) ∧
      (∀ x y, 0 ≤ x → x < y → y ≤ 1 → f x < f y) ∧
      (∀ x, 0 ≤ x → x ≤ 1 → 0 ≤ f x ∧ f x ≤ 1) := by
  have hmax : 0 < max_rng := lt_trans h0 hlt
  rcases hk with rfl | rfl | rfl
  · have hR := remap_strictMono_range (fun y => (10 : ℝ) ^ y) (fun y z h => rpow10_lt h)
      (log10 min_rng) (log10 max_rng) min_rng max_rng (log10_lt_log10 h0 hlt) hlt
      (rpow_log10 h0) (rpow_log10 hmax)
    exact ⟨_, fun x => (convert_scale_log_mel_erb x min_rng max_rng).1,
      fun x y _ hxy _ => hR.1 x y hxy, hR.2⟩
  · have hR := remap_strictMono_range melInv (fun y z h => melInv_lt h)
      (mel min_rng) (mel max_rng) min_rng max_rng (mel_lt_mel h0 hlt) hlt
      (melInv_mel h0) (melInv_mel hmax)
    exact ⟨_, fun x => (convert_scale_log_mel_erb x min_rng max_rng).2.1,
      fun x y _ hxy _ => hR.1 x y hxy, hR.2⟩
  · have hR := remap_strictMono_range erbInv (fun y z h => erbInv_lt h)
      (erb min_rng) (erb max_rng) min_rng max_rng (erb_lt_erb h0 hlt) hlt
      (erbInv_erb h0) (erbInv_erb hmax)
    exact ⟨_, fun x => (convert_scale_log_mel_erb x min_rng max_rng).2.2,
      fun x y _ hxy _ => hR.1 x y hxy, hR.2⟩

/-- C11 at the Mel kind with the bounds `[20, 8000]`. -/
theorem convert_scale_strictMono_range_witness :
    ((2 : Int) = 1 ∨ (2 : Int) = 2 ∨ (2 : Int) = 3) ∧ (0 : ℝ) < 20 ∧ (20 : ℝ) < 8000 ∧
    ∃ f : ℝ → ℝ,
      (∀ x, convert_scale 2 x 20 8000 = some (f x)) ∧
      (∀ x y, 0 ≤ x → x < y → y ≤ 1 → f x < f y) ∧
      (∀ x, 0 ≤ x → x ≤ 1 → 0 ≤ f x ∧ f x ≤ 1) :=
  ⟨by decide, by norm_num, by norm_num,
    convert_scale_strictMono_range 2 (by decide) 20 8000 (by norm_num) (by norm_num)⟩

end Backend
end ImPlot
